import Mathlib

/-!
Shallow embedding of the physics and collision core of the repository:
`src/systems/physics.rs` together with the data model it works on
(`src/components.rs`, `src/entity.rs`, `src/world.rs`).

Conventions of the embedding:

* `f32` values are modelled as exact rationals (`ℚ`), the usual exact-arithmetic
  idealization.  `f32::INFINITY`, which the source uses as the mass of
  immovable bodies, is modelled by `Option ℚ` (`none` = positive infinity);
  this covers every use of `mass` in the source (`is_finite()` and
  `1.0 / mass`).
* `f32::sqrt` is modelled by `ratSqrt`, a deterministic computable square root
  on `ℚ` that is exact on rationals whose reduced numerator and denominator
  are perfect squares.
* Rust's `f32::clamp(min, max)` panics when `min > max` or when a bound is
  NaN.  These clamps are the only aborting operations reachable from
  `PhysicsSystem::update`; the embedding returns `Except.error ()` exactly
  when the corresponding Rust call would panic.  The NaN/∞ conditions on the
  clamp bounds are derived from the exact values feeding them (see the
  comments in `resolve_collision_pair`).
* The Rust `Entity` enum has three variants (`Circle`, `Text`, `Rectangle`)
  that carry an identical set of component slots, and the physics code touches
  entities only through the uniform accessors (`transform()`, `physics()`,
  `shape()`, ...).  The embedding therefore uses a single structure; the
  variant tag is recoverable from `shape`.
* The `Except.ok` payload of the step driver carries, besides the world, two
  ghost logs used only to state properties: the list of detected contacts and
  the list of index pairs whose velocities received an impulse.  The logs do
  not influence the simulation state.
-/

instance {ε α : Type _} [DecidableEq ε] [DecidableEq α] : DecidableEq (Except ε α) := fun x y =>
  match x, y with
  | .ok a, .ok b => if h : a = b then .isTrue (by simp [h]) else .isFalse (by simp [h])
  | .error e, .error f => if h : e = f then .isTrue (by simp [h]) else .isFalse (by simp [h])
  | .ok _, .error _ => .isFalse (by simp)
  | .error _, .ok _ => .isFalse (by simp)

/-- Deterministic computable square root on `ℚ`, exact on perfect squares;
stands in for `f32::sqrt` on the nonnegative values the source feeds it. -/
def ratSqrt (q : ℚ) : ℚ := (Nat.sqrt q.num.toNat : ℚ) / (Nat.sqrt q.den : ℚ)

/-- Rust `f32::clamp` in the non-panicking case (`lo ≤ hi`, no NaN bound). -/
def clampQ (x lo hi : ℚ) : ℚ := max lo (min x hi)

abbrev Vec2 := ℚ × ℚ

/-- `Transform` from `src/components.rs`. -/
structure Transform where
  position : Vec2
  rotation : ℚ
  scale : Vec2
deriving DecidableEq

/-- `Transform::new`. -/
def Transform.new (position : Vec2) : Transform :=
  { position := position, rotation := 0, scale := (1, 1) }

/-- `Physics` from `src/components.rs`; `mass = none` models `f32::INFINITY`. -/
structure Physics where
  velocity : Vec2
  acceleration : Vec2
  mass : Option ℚ
  apply_gravity : Bool
  dynamic : Bool
  restitution : ℚ
  friction : ℚ
deriving DecidableEq

/-- `Physics::new`. -/
def Physics.new : Physics :=
  { velocity := (0, 0), acceleration := (0, 0), mass := some 1,
    apply_gravity := true, dynamic := true, restitution := 4/5, friction := 1/2 }

/-- `Physics::new_static`. -/
def Physics.new_static : Physics :=
  { Physics.new with
    mass := none
    dynamic := false
    apply_gravity := false
    restitution := 1/2 }

/-- `Clickable` from `src/components.rs` (never read by physics). -/
structure Clickable where
  enabled : Bool
  hovered : Bool
deriving DecidableEq

/-- `Shape` from `src/components.rs`. -/
inductive Shape where
  | circle (radius : ℚ) (color : ℚ × ℚ × ℚ)
  | text (content : String) (font_size : ℚ) (color : ℚ × ℚ × ℚ)
  | rectangle (length height : ℚ) (color : ℚ × ℚ × ℚ)
deriving DecidableEq

/-- Whether a shape is the `Text` variant. -/
def Shape.is_text : Shape → Bool
  | .text _ _ _ => true
  | _ => false

/-- `Entity` from `src/entity.rs`: the three enum variants carry the same
component slots and physics reads them only through the uniform accessors,
so a single structure represents all of them. -/
structure Entity where
  transform : Transform
  physics : Option Physics
  shape : Shape
  clickable : Option Clickable
deriving DecidableEq

/-- Fallback entity for out-of-range index access.  The driver only ever
indexes in bounds (the entity count is fixed during a step), so this value is
never observed by the simulation; it carries no physics. -/
def defaultEntity : Entity :=
  { transform := Transform.new (0, 0), physics := none,
    shape := .circle 0 (0, 0, 0), clickable := none }

/-- `World::entities` is a `Vec<Entity>`; the embedding uses a list. -/
abbrev World := List Entity

/-- Read `entities[i]` (total, with the never-observed fallback). -/
def getE (w : World) (i : ℕ) : Entity := w.getD i defaultEntity

/-- Write `entities[i]`. -/
def setE (w : World) (i : ℕ) (e : Entity) : World := w.set i e

/-- `phys.map(|p| p.mass).unwrap_or(f32::INFINITY)`. -/
def massOf (e : Entity) : Option ℚ := e.physics.bind Physics.mass

/-- `phys.map(|p| p.dynamic).unwrap_or(false)`. -/
def dynOf (e : Entity) : Bool := (e.physics.map Physics.dynamic).getD false

/-- `phys.map(|p| p.restitution).unwrap_or(0.5)`. -/
def restOf (e : Entity) : ℚ := (e.physics.map Physics.restitution).getD (1/2)

/-- `phys.map(|p| p.friction).unwrap_or(0.3)`. -/
def fricOf (e : Entity) : ℚ := (e.physics.map Physics.friction).getD (3/10)

/-- `physics().map(|p| p.velocity).unwrap_or([0.0, 0.0])`. -/
def velOf (e : Entity) : Vec2 := (e.physics.map Physics.velocity).getD (0, 0)

/-- `if dynamic && mass.is_finite() { 1.0 / mass } else { 0.0 }`. -/
def invMassOf (e : Entity) : ℚ :=
  if dynOf e then
    match massOf e with
    | some m => 1 / m
    | none => 0
  else 0

/-- `PhysicsSystem` from `src/systems/physics.rs`. -/
structure PhysicsSystem where
  gravity : Vec2
  collision_iterations : ℕ
  sleep_velocity_threshold : ℚ
  contact_friction_coefficient : ℚ
  air_damping : ℚ
deriving DecidableEq

/-- `PhysicsSystem::new`. -/
def PhysicsSystem.new : PhysicsSystem :=
  { gravity := (0, -(1/2)), collision_iterations := 4,
    sleep_velocity_threshold := 1/1000, contact_friction_coefficient := 2,
    air_damping := 49/50 }

/-- `PhysicsSystem::check_circle_circle` (reads nothing from `self`). -/
def check_circle_circle (pos_a : Vec2) (r_a : ℚ) (pos_b : Vec2) (r_b : ℚ) :
    Option (Vec2 × ℚ) :=
  let dx := pos_b.1 - pos_a.1
  let dy := pos_b.2 - pos_a.2
  let dist_sq := dx * dx + dy * dy
  let min_dist := r_a + r_b
  if dist_sq < min_dist * min_dist ∧ 1/10000 < dist_sq then
    let dist := ratSqrt dist_sq
    some ((dx / dist, dy / dist), min_dist - dist)
  else none

/-- `PhysicsSystem::check_circle_rect`.  The two `clamp` calls panic in Rust
when the rectangle has a negative extent (inverted bounds), modelled by
`Except.error`. -/
def check_circle_rect (circle_pos : Vec2) (radius : ℚ) (rect_pos : Vec2)
    (length height : ℚ) : Except Unit (Option (Vec2 × ℚ)) :=
  let half_w := length / 2
  let half_h := height / 2
  if length < 0 ∨ height < 0 then .error () else
  let closest_x := clampQ (circle_pos.1 - rect_pos.1) (-half_w) half_w + rect_pos.1
  let closest_y := clampQ (circle_pos.2 - rect_pos.2) (-half_h) half_h + rect_pos.2
  let dx := circle_pos.1 - closest_x
  let dy := circle_pos.2 - closest_y
  let dist_sq := dx * dx + dy * dy
  if dist_sq < radius * radius then
    if 1/10000 < dist_sq then
      let dist := ratSqrt dist_sq
      .ok (some ((dx / dist, dy / dist), radius - dist))
    else
      let dx_to_edge := half_w - |circle_pos.1 - rect_pos.1|
      let dy_to_edge := half_h - |circle_pos.2 - rect_pos.2|
      if dx_to_edge < dy_to_edge then
        let sign : ℚ := if rect_pos.1 < circle_pos.1 then 1 else -1
        .ok (some ((sign, 0), radius + dx_to_edge))
      else
        let sign : ℚ := if rect_pos.2 < circle_pos.2 then 1 else -1
        .ok (some ((0, sign), radius + dy_to_edge))
  else .ok none

/-- `PhysicsSystem::check_rect_rect`. -/
def check_rect_rect (pos_a : Vec2) (len_a height_a : ℚ) (pos_b : Vec2)
    (len_b height_b : ℚ) : Option (Vec2 × ℚ) :=
  let half_w_a := len_a / 2
  let half_h_a := height_a / 2
  let half_w_b := len_b / 2
  let half_h_b := height_b / 2
  let dx := pos_b.1 - pos_a.1
  let dy := pos_b.2 - pos_a.2
  let overlap_x := (half_w_a + half_w_b) - |dx|
  let overlap_y := (half_h_a + half_h_b) - |dy|
  if 0 < overlap_x ∧ 0 < overlap_y then
    if overlap_x < overlap_y then
      some ((if 0 < dx then ((1 : ℚ), (0 : ℚ)) else (-1, 0)), overlap_x)
    else
      some ((if 0 < dy then ((0 : ℚ), (1 : ℚ)) else (0, -1)), overlap_y)
  else none

/-- `PhysicsSystem::check_collision`. -/
def check_collision (ea eb : Entity) : Except Unit (Option (Vec2 × ℚ)) :=
  if ea.physics.isNone ∧ eb.physics.isNone then .ok none else
  let pos_a := ea.transform.position
  let pos_b := eb.transform.position
  match ea.shape, eb.shape with
  | .circle r_a _, .circle r_b _ => .ok (check_circle_circle pos_a r_a pos_b r_b)
  | .circle radius _, .rectangle length height _ =>
      check_circle_rect pos_a radius pos_b length height
  | .rectangle length height _, .circle radius _ =>
      (check_circle_rect pos_b radius pos_a length height).map
        (Option.map fun nd => ((-nd.1.1, -nd.1.2), nd.2))
  | .rectangle l_a h_a _, .rectangle l_b h_b _ =>
      .ok (check_rect_rect pos_a l_a h_a pos_b l_b h_b)
  | _, _ => .ok none

/-- Overwrite only `Transform.position` of entity `i`. -/
def setPos (w : World) (i : ℕ) (p : Vec2) : World :=
  setE w i { getE w i with transform := { (getE w i).transform with position := p } }

/-- Overwrite only `Physics.velocity` of entity `i` (no-op without physics). -/
def setVel (w : World) (i : ℕ) (v : Vec2) : World :=
  setE w i { getE w i with
             physics := (getE w i).physics.map fun ph => { ph with velocity := v } }

/-- The `POSITION CORRECTION` block of `resolve_collision_pair`
(`physics.rs` lines 294-326).  The inverse masses and dynamic flags are the
ones gathered at the start of `resolve_collision_pair`; recomputing them here
from `w` is identical because nothing is mutated in between. -/
def position_correction (w : World) (idx_a idx_b : ℕ) (normal : Vec2)
    (depth : ℚ) : World :=
  let dynamic_a := dynOf (getE w idx_a)
  let dynamic_b := dynOf (getE w idx_b)
  let inv_mass_a := invMassOf (getE w idx_a)
  let inv_mass_b := invMassOf (getE w idx_b)
  let total_inv_mass := inv_mass_a + inv_mass_b
  if 0 < total_inv_mass then
    let correction := (normal.1 * depth / total_inv_mass,
                       normal.2 * depth / total_inv_mass)
    let w1 := if dynamic_a && decide (0 < inv_mass_a) then
        setPos w idx_a
          ((getE w idx_a).transform.position.1 - correction.1 * inv_mass_a,
           (getE w idx_a).transform.position.2 - correction.2 * inv_mass_a)
      else w
    if dynamic_b && decide (0 < inv_mass_b) then
      setPos w1 idx_b
        ((getE w1 idx_b).transform.position.1 + correction.1 * inv_mass_b,
         (getE w1 idx_b).transform.position.2 + correction.2 * inv_mass_b)
    else w1
  else w

/-- The `Apply impulses` block of `resolve_collision_pair` (`physics.rs`
lines 374-391).  The gate values (`dynamic`, inverse mass) and the velocities
are read back from the current world; they coincide with the ones gathered at
the start of `resolve_collision_pair` because the position correction in
between writes only `Transform.position`. -/
def apply_impulse (w1 : World) (idx_a idx_b : ℕ) (total_impulse : Vec2) : World :=
  let w2 := if dynOf (getE w1 idx_a) && decide (0 < invMassOf (getE w1 idx_a)) then
      setVel w1 idx_a
        ((velOf (getE w1 idx_a)).1 - total_impulse.1 * invMassOf (getE w1 idx_a),
         (velOf (getE w1 idx_a)).2 - total_impulse.2 * invMassOf (getE w1 idx_a))
    else w1
  if dynOf (getE w2 idx_b) && decide (0 < invMassOf (getE w2 idx_b)) then
    setVel w2 idx_b
      ((velOf (getE w2 idx_b)).1 + total_impulse.1 * invMassOf (getE w2 idx_b),
       (velOf (getE w2 idx_b)).2 + total_impulse.2 * invMassOf (getE w2 idx_b))
  else w2

/-- `PhysicsSystem::resolve_collision_pair` (which reads nothing from `self`;
`dt_secs` is a parameter of the source function but is never used by it).

The returned `Bool` is ghost instrumentation: `true` iff the velocity-impulse
application block wrote to at least one of the two sides.

Abort modelling.  The Rust code computes
`j = -(1+e)*vel_along_normal/total_inv_mass` and then
`(-vel_along_tangent/total_inv_mass).clamp(-j.abs()*friction, j.abs()*friction)`.
`f32::clamp` panics iff a bound is NaN or `min > max`.  With exact values for
`vel_along_normal` (≤ 0 here), `total_inv_mass` and `friction`:
* `restitution_a * restitution_b < 0` makes `e = sqrt(<0) = NaN`, hence NaN
  bounds: panic;
* `total_inv_mass = 0` and `vel_along_normal = 0` make `j = NaN`: panic;
* `total_inv_mass = 0`, `vel_along_normal < 0` make `j = ∞`; the bounds are
  `∓∞*friction`, which are NaN when `friction = 0` and inverted when
  `friction < 0`: panic for `friction ≤ 0`.  For `friction > 0` the bounds
  are `∓∞` and nothing panics; the garbage impulse is then discarded by the
  `inv_mass > 0` guards (with nonnegative masses both inverse masses are 0
  here), so the world is returned unchanged, which in the rational model is
  what the uniform formulas below produce (`x / 0 = 0`);
* `total_inv_mass ≠ 0` gives a finite `j`; the bounds are inverted iff
  `j.abs() * friction < 0`: panic. -/
def resolve_collision_pair (w : World) (idx_a idx_b : ℕ) (normal : Vec2)
    (depth dt_secs : ℚ) : Except Unit (World × Bool) :=
  let ea := getE w idx_a
  let eb := getE w idx_b
  let dynamic_a := dynOf ea
  let dynamic_b := dynOf eb
  let restitution_a := restOf ea
  let restitution_b := restOf eb
  let friction_a := fricOf ea
  let friction_b := fricOf eb
  if !dynamic_a && !dynamic_b then .ok (w, false) else
  let inv_mass_a := invMassOf ea
  let inv_mass_b := invMassOf eb
  let total_inv_mass := inv_mass_a + inv_mass_b
  let w1 := position_correction w idx_a idx_b normal depth
  let vel_a := velOf (getE w1 idx_a)
  let vel_b := velOf (getE w1 idx_b)
  let rel_vel := (vel_a.1 - vel_b.1, vel_a.2 - vel_b.2)
  let vel_along_normal := rel_vel.1 * normal.1 + rel_vel.2 * normal.2
  if 0 < vel_along_normal then .ok (w1, false) else
  if restitution_a * restitution_b < 0 then .error () else
  let restitution := ratSqrt (restitution_a * restitution_b)
  let friction := (friction_a + friction_b) / 2
  if total_inv_mass = 0 ∧ (vel_along_normal = 0 ∨ friction ≤ 0) then .error () else
  let j := -(1 + restitution) * vel_along_normal / total_inv_mass
  if |j| * friction < 0 then .error () else
  let tangent := (-normal.2, normal.1)
  let vel_along_tangent := rel_vel.1 * tangent.1 + rel_vel.2 * tangent.2
  let friction_impulse_mag :=
    clampQ (-vel_along_tangent / total_inv_mass) (-(|j| * friction)) (|j| * friction)
  let total_impulse := (normal.1 * j + tangent.1 * friction_impulse_mag,
                        normal.2 * j + tangent.2 * friction_impulse_mag)
  .ok (apply_impulse w1 idx_a idx_b total_impulse,
       (dynamic_a && decide (0 < inv_mass_a)) || (dynamic_b && decide (0 < inv_mass_b)))

/-- A detected contact, as ghost data: `(i, j, normal, depth)`. -/
abbrev Contact := ℕ × ℕ × Vec2 × ℚ

/-- The unordered index pairs `i < j` in the scan order of
`resolve_collisions`. -/
def allPairs (n : ℕ) : List (ℕ × ℕ) :=
  (List.range n).flatMap fun i => ((List.range n).drop (i + 1)).map fun j => (i, j)

/-- The body of one `resolve_collisions` scan over a list of index pairs:
detect, then resolve on contact.  Returns the world plus the ghost logs of
detected contacts and of pairs that received a velocity impulse. -/
def passPairs (dt_secs : ℚ) :
    List (ℕ × ℕ) → World → Except Unit (World × List Contact × List (ℕ × ℕ))
  | [], w => .ok (w, [], [])
  | (i, j) :: rest, w =>
    match check_collision (getE w i) (getE w j) with
    | .error e => .error e
    | .ok none => passPairs dt_secs rest w
    | .ok (some (n, d)) =>
      match resolve_collision_pair w i j n d dt_secs with
      | .error e => .error e
      | .ok (w1, applied) =>
        match passPairs dt_secs rest w1 with
        | .error e => .error e
        | .ok (w2, cl, il) =>
          .ok (w2, (i, j, n, d) :: cl, if applied then (i, j) :: il else il)

/-- `PhysicsSystem::resolve_collisions`: one scan over all pairs `i < j`. -/
def resolve_collisions (w : World) (dt_secs : ℚ) :
    Except Unit (World × List Contact × List (ℕ × ℕ)) :=
  passPairs dt_secs (allPairs w.length) w

/-- The `for _ in 0..self.collision_iterations` loop of `update`
(ghost logs of the iterations are concatenated in order). -/
def resolve_loop (dt_secs : ℚ) :
    ℕ → World → Except Unit (World × List Contact × List (ℕ × ℕ))
  | 0, w => .ok (w, [], [])
  | Nat.succ k, w =>
    match resolve_collisions w dt_secs with
    | .error e => .error e
    | .ok (w1, cl1, il1) =>
      match resolve_loop dt_secs k w1 with
      | .error e => .error e
      | .ok (w2, cl2, il2) => .ok (w2, cl1 ++ cl2, il1 ++ il2)

/-- Phase 1 of `PhysicsSystem::update` for one entity: apply gravity,
integrate velocity, damp, sleep, reset acceleration. -/
def integrate_velocity (s : PhysicsSystem) (dt_secs : ℚ) (e : Entity) : Entity :=
  match e.physics with
  | none => e
  | some p =>
    if !p.dynamic then e else
    let acc := if p.apply_gravity then
        (p.acceleration.1 + s.gravity.1, p.acceleration.2 + s.gravity.2)
      else p.acceleration
    let v1 := (p.velocity.1 + acc.1 * dt_secs, p.velocity.2 + acc.2 * dt_secs)
    let v2 := (v1.1 * s.air_damping, v1.2 * s.air_damping)
    let speed_sq := v2.1 * v2.1 + v2.2 * v2.2
    let v3 := if speed_sq < s.sleep_velocity_threshold * s.sleep_velocity_threshold
      then ((0 : ℚ), (0 : ℚ)) else v2
    { e with physics := some { p with velocity := v3, acceleration := (0, 0) } }

/-- Phase 2 of `PhysicsSystem::update` for one entity: integrate position. -/
def integrate_position (dt_secs : ℚ) (e : Entity) : Entity :=
  match e.physics with
  | none => e
  | some p =>
    if !p.dynamic then e else
    { e with transform := { e.transform with
        position := (e.transform.position.1 + p.velocity.1 * dt_secs,
                     e.transform.position.2 + p.velocity.2 * dt_secs) } }

/-- `PhysicsSystem::update`: the step driver.  `dt_secs` is
`dt.as_secs_f32()` (a `Duration`, hence nonnegative, in the source; the model
takes any rational).  The source's `&mut self` never writes any field of
`self`, and the function returns `()`; the model additionally returns the
ghost logs of phase 3. -/
def update (s : PhysicsSystem) (w : World) (dt_secs : ℚ) :
    Except Unit (World × List Contact × List (ℕ × ℕ)) :=
  let w1 := w.map (integrate_velocity s dt_secs)
  let w2 := w1.map (integrate_position dt_secs)
  resolve_loop dt_secs s.collision_iterations w2

/-! ### Access lemmas -/

theorem getE_set_ne (w : World) (i k : ℕ) (e : Entity) (h : k ≠ i) :
    getE (setE w i e) k = getE w k := by
  simp [getE, setE, List.getD_eq_getElem?_getD, List.getElem?_set_ne (Ne.symm h)]

theorem getE_set_self (w : World) (i : ℕ) (e : Entity) (h : i < w.length) :
    getE (setE w i e) i = e := by
  simp [getE, setE, List.getD_eq_getElem?_getD, List.getElem?_set_self h]

theorem setE_oob (w : World) (i : ℕ) (e : Entity) (h : w.length ≤ i) :
    setE w i e = w := List.set_eq_of_length_le h

theorem getE_oob (w : World) (i : ℕ) (h : w.length ≤ i) : getE w i = defaultEntity := by
  simp [getE, List.getD_eq_getElem?_getD, List.getElem?_eq_none h]

theorem getE_map (f : Entity → Entity) (hf : f defaultEntity = defaultEntity)
    (w : World) (i : ℕ) : getE (w.map f) i = f (getE w i) := by
  simp only [getE, List.getD_eq_getElem?_getD, List.getElem?_map]
  cases h : w[i]? with
  | none => simp [hf]
  | some e => simp

/-- The acceleration slot of an entity, if it has physics. -/
def physAcc (e : Entity) : Option Vec2 := e.physics.map Physics.acceleration

/-- The physics fields that no part of `update` ever writes. -/
def physStatic (e : Entity) : Option (Option ℚ × Bool × Bool × ℚ × ℚ) :=
  e.physics.map fun p => (p.mass, p.apply_gravity, p.dynamic, p.restitution, p.friction)

theorem fields_of_physStatic {e1 e2 : Entity} (h : physStatic e1 = physStatic e2) :
    dynOf e1 = dynOf e2 ∧ invMassOf e1 = invMassOf e2 ∧ restOf e1 = restOf e2 ∧
      fricOf e1 = fricOf e2 ∧ massOf e1 = massOf e2 := by
  cases h1 : e1.physics with
  | none =>
    cases h2 : e2.physics with
    | none => simp [dynOf, invMassOf, restOf, fricOf, massOf, h1, h2]
    | some p2 => simp [physStatic, h1, h2] at h
  | some p1 =>
    cases h2 : e2.physics with
    | none => simp [physStatic, h1, h2] at h
    | some p2 =>
      have h5 : (p1.mass, p1.apply_gravity, p1.dynamic, p1.restitution, p1.friction)
          = (p2.mass, p2.apply_gravity, p2.dynamic, p2.restitution, p2.friction) := by
        simpa [physStatic, h1, h2] using h
      have hm := congrArg (fun t : Option ℚ × Bool × Bool × ℚ × ℚ => t.1) h5
      have hg := congrArg (fun t : Option ℚ × Bool × Bool × ℚ × ℚ => t.2.1) h5
      have hd := congrArg (fun t : Option ℚ × Bool × Bool × ℚ × ℚ => t.2.2.1) h5
      have hr := congrArg (fun t : Option ℚ × Bool × Bool × ℚ × ℚ => t.2.2.2.1) h5
      have hf := congrArg (fun t : Option ℚ × Bool × Bool × ℚ × ℚ => t.2.2.2.2) h5
      simp only at hm hg hd hr hf
      simp [dynOf, invMassOf, restOf, fricOf, massOf, h1, h2, hm, hg, hd, hr, hf]

theorem setPos_entity (w : World) (i : ℕ) (p : Vec2) (k : ℕ) :
    (getE (setPos w i p) k).physics = (getE w k).physics ∧
      (getE (setPos w i p) k).shape = (getE w k).shape := by
  by_cases hk : k = i
  · subst hk
    by_cases hl : k < w.length
    · simp [setPos, getE_set_self _ _ _ hl]
    · simp [setPos, setE_oob _ _ _ (le_of_not_lt hl)]
  · simp [setPos, getE_set_ne _ _ _ _ hk]

theorem setPos_getE_ne (w : World) (i : ℕ) (p : Vec2) (k : ℕ) (h : k ≠ i) :
    getE (setPos w i p) k = getE w k := getE_set_ne _ _ _ _ h

theorem setVel_entity (w : World) (i : ℕ) (v : Vec2) (k : ℕ) :
    (getE (setVel w i v) k).transform = (getE w k).transform ∧
      physAcc (getE (setVel w i v) k) = physAcc (getE w k) ∧
      physStatic (getE (setVel w i v) k) = physStatic (getE w k) ∧
      (getE (setVel w i v) k).shape = (getE w k).shape := by
  by_cases hk : k = i
  · subst hk
    by_cases hl : k < w.length
    · simp only [setVel, getE_set_self _ _ _ hl]
      cases hp : (getE w k).physics <;> simp [physAcc, physStatic, hp]
    · simp [setVel, setE_oob _ _ _ (le_of_not_lt hl)]
  · simp [setVel, getE_set_ne _ _ _ _ hk]

theorem setVel_getE_ne (w : World) (i : ℕ) (v : Vec2) (k : ℕ) (h : k ≠ i) :
    getE (setVel w i v) k = getE w k := getE_set_ne _ _ _ _ h

/-! ### Well-formed entities: the conditions under which no clamp can panic -/

/-- Data of an entity that make every clamp reachable from the driver keep
ordered, non-NaN bounds: nonnegative rectangle extents, nonnegative
restitution and friction, positive finite masses, and no dynamic body of
infinite mass.  All of these fields are never written by `update`. -/
def entityOkB (e : Entity) : Bool :=
  (match e.shape with
   | .rectangle len h _ => decide (0 ≤ len) && decide (0 ≤ h)
   | _ => true) &&
  (match e.physics with
   | some p => decide (0 ≤ p.restitution) && decide (0 ≤ p.friction) &&
       (match p.mass with
        | some m => decide (0 < m)
        | none => !p.dynamic)
   | none => true)

/-- Well-formedness of a whole world. -/
def WorldOk (w : World) : Bool := w.all entityOkB

theorem entityOkB_default : entityOkB defaultEntity = true := by decide

theorem WorldOk_getE {w : World} (h : WorldOk w = true) (k : ℕ) :
    entityOkB (getE w k) = true := by
  by_cases hk : k < w.length
  · have hm : getE w k ∈ w := by
      simp only [getE, List.getD_eq_getElem?_getD, List.getElem?_eq_getElem hk]
      exact List.getElem_mem hk
    exact List.all_eq_true.mp h _ hm
  · rw [getE_oob _ _ (le_of_not_lt hk)]; exact entityOkB_default

theorem entityOkB_physics {e : Entity} (h : entityOkB e = true) {p : Physics}
    (hp : e.physics = some p) :
    0 ≤ p.restitution ∧ 0 ≤ p.friction ∧
      (∀ m, p.mass = some m → 0 < m) ∧ (p.mass = none → p.dynamic = false) := by
  simp only [entityOkB, hp, Bool.and_eq_true, decide_eq_true_eq] at h
  obtain ⟨-, ⟨hr, hf⟩, hm⟩ := h
  refine ⟨hr, hf, ?_, ?_⟩
  · intro m hmm
    rw [hmm] at hm
    simpa using hm
  · intro hmm
    rw [hmm] at hm
    simpa using hm

theorem restOf_nonneg {e : Entity} (h : entityOkB e = true) : 0 ≤ restOf e := by
  cases hp : e.physics with
  | none => rw [restOf, hp]; norm_num
  | some p =>
    rw [restOf, hp]
    simpa using (entityOkB_physics h hp).1

theorem fricOf_nonneg {e : Entity} (h : entityOkB e = true) : 0 ≤ fricOf e := by
  cases hp : e.physics with
  | none => rw [fricOf, hp]; norm_num
  | some p =>
    rw [fricOf, hp]
    simpa using (entityOkB_physics h hp).2.1

theorem invMassOf_nonneg {e : Entity} (h : entityOkB e = true) : 0 ≤ invMassOf e := by
  rw [invMassOf]
  split
  · cases hm : massOf e with
    | none => simp
    | some m =>
      cases hp : e.physics with
      | none => simp [massOf, hp] at hm
      | some p =>
        simp only [massOf, hp, Option.bind_eq_bind, Option.some_bind] at hm
        have := (entityOkB_physics h hp).2.2.1 m hm
        simp only []
        exact le_of_lt (one_div_pos.mpr this)
  · exact le_refl 0

theorem invMassOf_pos_of_dyn {e : Entity} (h : entityOkB e = true)
    (hd : dynOf e = true) : 0 < invMassOf e := by
  cases hp : e.physics with
  | none => simp [dynOf, hp] at hd
  | some p =>
    have hpd : p.dynamic = true := by simpa [dynOf, hp] using hd
    cases hm : p.mass with
    | none =>
      have := (entityOkB_physics h hp).2.2.2 hm
      rw [this] at hpd
      simp at hpd
    | some m =>
      have hmp := (entityOkB_physics h hp).2.2.1 m hm
      have hcond : (Option.map Physics.dynamic (some p)).getD false = true := by
        simp [hpd]
      rw [invMassOf, dynOf, hp]
      simp only [hcond, if_true, massOf, hp, Option.bind_eq_bind,
        Option.some_bind, hm]
      exact one_div_pos.mpr hmp

theorem dynOf_of_invMassOf_pos {e : Entity} (h : 0 < invMassOf e) :
    dynOf e = true := by
  by_contra hd
  simp only [Bool.not_eq_true] at hd
  rw [invMassOf, hd] at h
  simp at h

/-! ### Position-correction lemmas -/

theorem setPos_physics (w : World) (i : ℕ) (p : Vec2) (k : ℕ) :
    (getE (setPos w i p) k).physics = (getE w k).physics := (setPos_entity w i p k).1

theorem setPos_shape (w : World) (i : ℕ) (p : Vec2) (k : ℕ) :
    (getE (setPos w i p) k).shape = (getE w k).shape := (setPos_entity w i p k).2

theorem pc_physics (w : World) (i j : ℕ) (n : Vec2) (d : ℚ) (k : ℕ) :
    (getE (position_correction w i j n d) k).physics = (getE w k).physics := by
  simp only [position_correction]
  split_ifs <;> simp [setPos_physics]

theorem pc_shape (w : World) (i j : ℕ) (n : Vec2) (d : ℚ) (k : ℕ) :
    (getE (position_correction w i j n d) k).shape = (getE w k).shape := by
  simp only [position_correction]
  split_ifs <;> simp [setPos_shape]

theorem pc_getE_ne (w : World) (i j : ℕ) (n : Vec2) (d : ℚ) (k : ℕ)
    (hki : k ≠ i) (hkj : k ≠ j) :
    getE (position_correction w i j n d) k = getE w k := by
  simp only [position_correction]
  split_ifs <;> simp [setPos_getE_ne _ _ _ _ hki, setPos_getE_ne _ _ _ _ hkj]

theorem pc_nondyn (w : World) (i j : ℕ) (n : Vec2) (d : ℚ) (k : ℕ)
    (hdyn : dynOf (getE w k) = false) :
    getE (position_correction w i j n d) k = getE w k := by
  by_cases hki : k = i
  · subst hki
    by_cases hkj : k = j
    · subst hkj
      simp only [position_correction, hdyn, Bool.false_and, Bool.false_eq_true,
        if_false]
      split_ifs <;> rfl
    · simp only [position_correction, hdyn, Bool.false_and, Bool.false_eq_true,
        if_false]
      split_ifs <;> simp [setPos_getE_ne _ _ _ _ hkj]
  · by_cases hkj : k = j
    · subst hkj
      simp only [position_correction, hdyn, Bool.false_and, Bool.false_eq_true,
        if_false]
      split_ifs <;> simp [setPos_getE_ne _ _ _ _ hki]
    · exact pc_getE_ne w i j n d k hki hkj

/-! ### Impulse-application lemmas -/

theorem setVel_transform (w : World) (i : ℕ) (v : Vec2) (k : ℕ) :
    (getE (setVel w i v) k).transform = (getE w k).transform :=
  (setVel_entity w i v k).1

theorem setVel_physAcc (w : World) (i : ℕ) (v : Vec2) (k : ℕ) :
    physAcc (getE (setVel w i v) k) = physAcc (getE w k) :=
  (setVel_entity w i v k).2.1

theorem setVel_physStatic (w : World) (i : ℕ) (v : Vec2) (k : ℕ) :
    physStatic (getE (setVel w i v) k) = physStatic (getE w k) :=
  (setVel_entity w i v k).2.2.1

theorem setVel_shape (w : World) (i : ℕ) (v : Vec2) (k : ℕ) :
    (getE (setVel w i v) k).shape = (getE w k).shape :=
  (setVel_entity w i v k).2.2.2

theorem setVel_dynOf (w : World) (i : ℕ) (v : Vec2) (k : ℕ) :
    dynOf (getE (setVel w i v) k) = dynOf (getE w k) :=
  (fields_of_physStatic (setVel_physStatic w i v k)).1

theorem pc_dynOf (w : World) (i j : ℕ) (n : Vec2) (d : ℚ) (k : ℕ) :
    dynOf (getE (position_correction w i j n d) k) = dynOf (getE w k) := by
  rw [dynOf, pc_physics, dynOf]

theorem pc_physAcc (w : World) (i j : ℕ) (n : Vec2) (d : ℚ) (k : ℕ) :
    physAcc (getE (position_correction w i j n d) k) = physAcc (getE w k) := by
  rw [physAcc, pc_physics, physAcc]

theorem pc_physStatic (w : World) (i j : ℕ) (n : Vec2) (d : ℚ) (k : ℕ) :
    physStatic (getE (position_correction w i j n d) k) = physStatic (getE w k) := by
  rw [physStatic, pc_physics, physStatic]

theorem ai_transform (w : World) (i j : ℕ) (t : Vec2) (k : ℕ) :
    (getE (apply_impulse w i j t) k).transform = (getE w k).transform := by
  simp only [apply_impulse]
  split_ifs <;> simp [setVel_transform]

theorem ai_physAcc (w : World) (i j : ℕ) (t : Vec2) (k : ℕ) :
    physAcc (getE (apply_impulse w i j t) k) = physAcc (getE w k) := by
  simp only [apply_impulse]
  split_ifs <;> simp [setVel_physAcc]

theorem ai_physStatic (w : World) (i j : ℕ) (t : Vec2) (k : ℕ) :
    physStatic (getE (apply_impulse w i j t) k) = physStatic (getE w k) := by
  simp only [apply_impulse]
  split_ifs <;> simp [setVel_physStatic]

theorem ai_shape (w : World) (i j : ℕ) (t : Vec2) (k : ℕ) :
    (getE (apply_impulse w i j t) k).shape = (getE w k).shape := by
  simp only [apply_impulse]
  split_ifs <;> simp [setVel_shape]

theorem ai_getE_ne (w : World) (i j : ℕ) (t : Vec2) (k : ℕ)
    (hki : k ≠ i) (hkj : k ≠ j) :
    getE (apply_impulse w i j t) k = getE w k := by
  simp only [apply_impulse]
  split_ifs <;> simp [setVel_getE_ne _ _ _ _ hki, setVel_getE_ne _ _ _ _ hkj]

theorem ai_nondyn (w : World) (i j : ℕ) (t : Vec2) (k : ℕ)
    (hdyn : dynOf (getE w k) = false) :
    getE (apply_impulse w i j t) k = getE w k := by
  simp only [apply_impulse]
  by_cases hki : k = i
  · subst hki
    rw [hdyn]
    simp only [Bool.false_and, Bool.false_eq_true, if_false]
    by_cases hkj : k = j
    · subst hkj
      rw [hdyn]
      simp
    · split_ifs <;> simp [setVel_getE_ne _ _ _ _ hkj]
  · by_cases hkj : k = j
    · subst hkj
      split_ifs with hga hgb1 hgb2
      · rw [setVel_dynOf, hdyn] at hgb1
        simp at hgb1
      · exact setVel_getE_ne _ _ _ _ hki
      · rw [hdyn] at hgb2
        simp at hgb2
      · rfl
    · exact ai_getE_ne _ _ _ _ _ hki hkj

/-! ### Branch analysis of the collision resolver -/

theorem rcp_cases {w : World} {i j : ℕ} {n : Vec2} {d dt : ℚ} {wr : World}
    {b : Bool} (h : resolve_collision_pair w i j n d dt = .ok (wr, b)) :
    wr = w ∨ wr = position_correction w i j n d ∨
      ∃ t, wr = apply_impulse (position_correction w i j n d) i j t := by
  simp only [resolve_collision_pair] at h
  split_ifs at h <;>
    first
      | exact Except.noConfusion h
      | (simp only [Except.ok.injEq, Prod.mk.injEq] at h
         first
           | exact Or.inl h.1.symm
           | exact Or.inr (Or.inl h.1.symm)
           | exact Or.inr (Or.inr ⟨_, h.1.symm⟩))

theorem rcp_getE_ne {w : World} {i j : ℕ} {n : Vec2} {d dt : ℚ} {wr : World}
    {b : Bool} (h : resolve_collision_pair w i j n d dt = .ok (wr, b)) (k : ℕ)
    (hki : k ≠ i) (hkj : k ≠ j) : getE wr k = getE w k := by
  rcases rcp_cases h with h1 | h1 | ⟨t, h1⟩ <;> subst h1
  · rfl
  · exact pc_getE_ne _ _ _ _ _ _ hki hkj
  · rw [ai_getE_ne _ _ _ _ _ hki hkj, pc_getE_ne _ _ _ _ _ _ hki hkj]

theorem rcp_nondyn {w : World} {i j : ℕ} {n : Vec2} {d dt : ℚ} {wr : World}
    {b : Bool} (h : resolve_collision_pair w i j n d dt = .ok (wr, b)) (k : ℕ)
    (hdyn : dynOf (getE w k) = false) : getE wr k = getE w k := by
  rcases rcp_cases h with h1 | h1 | ⟨t, h1⟩ <;> subst h1
  · rfl
  · exact pc_nondyn _ _ _ _ _ _ hdyn
  · have hdyn1 : dynOf (getE (position_correction w i j n d) k) = false := by
      rw [pc_dynOf]; exact hdyn
    rw [ai_nondyn _ _ _ _ _ hdyn1, pc_nondyn _ _ _ _ _ _ hdyn]

theorem rcp_physAcc {w : World} {i j : ℕ} {n : Vec2} {d dt : ℚ} {wr : World}
    {b : Bool} (h : resolve_collision_pair w i j n d dt = .ok (wr, b)) (k : ℕ) :
    physAcc (getE wr k) = physAcc (getE w k) := by
  rcases rcp_cases h with h1 | h1 | ⟨t, h1⟩ <;> subst h1
  · rfl
  · exact pc_physAcc _ _ _ _ _ _
  · rw [ai_physAcc, pc_physAcc]

theorem rcp_physStatic {w : World} {i j : ℕ} {n : Vec2} {d dt : ℚ} {wr : World}
    {b : Bool} (h : resolve_collision_pair w i j n d dt = .ok (wr, b)) (k : ℕ) :
    physStatic (getE wr k) = physStatic (getE w k) := by
  rcases rcp_cases h with h1 | h1 | ⟨t, h1⟩ <;> subst h1
  · rfl
  · exact pc_physStatic _ _ _ _ _ _
  · rw [ai_physStatic, pc_physStatic]

theorem rcp_shape {w : World} {i j : ℕ} {n : Vec2} {d dt : ℚ} {wr : World}
    {b : Bool} (h : resolve_collision_pair w i j n d dt = .ok (wr, b)) (k : ℕ) :
    (getE wr k).shape = (getE w k).shape := by
  rcases rcp_cases h with h1 | h1 | ⟨t, h1⟩ <;> subst h1
  · rfl
  · exact pc_shape _ _ _ _ _ _
  · rw [ai_shape, pc_shape]

/-! ### Scan-level lemmas -/

theorem pass_entity_data (dt : ℚ) (L : List (ℕ × ℕ)) (w : World) {wr : World}
    {cl : List Contact} {il : List (ℕ × ℕ)}
    (h : passPairs dt L w = .ok (wr, cl, il)) (k : ℕ) :
    physAcc (getE wr k) = physAcc (getE w k) ∧
      physStatic (getE wr k) = physStatic (getE w k) ∧
      (getE wr k).shape = (getE w k).shape := by
  induction L generalizing w cl il with
  | nil =>
    simp only [passPairs, Except.ok.injEq, Prod.mk.injEq] at h
    obtain ⟨hw, -, -⟩ := h
    subst hw
    exact ⟨rfl, rfl, rfl⟩
  | cons p rest ih =>
    obtain ⟨a, b⟩ := p
    simp only [passPairs] at h
    split at h
    · exact Except.noConfusion h
    · exact ih w h
    · split at h
      · exact Except.noConfusion h
      · split at h
        · exact Except.noConfusion h
        · rename_i x2 n d hc x1 w1 applied hr x0 w2 cl2 il2 hp
          simp only [Except.ok.injEq, Prod.mk.injEq] at h
          obtain ⟨hw, -, -⟩ := h
          subst hw
          obtain ⟨h1, h2, h3⟩ := ih w1 hp
          exact ⟨h1.trans (rcp_physAcc hr k), h2.trans (rcp_physStatic hr k),
            h3.trans (rcp_shape hr k)⟩

theorem pass_nondyn (dt : ℚ) (L : List (ℕ × ℕ)) (w : World) {wr : World}
    {cl : List Contact} {il : List (ℕ × ℕ)}
    (h : passPairs dt L w = .ok (wr, cl, il)) (i : ℕ)
    (hdyn : dynOf (getE w i) = false) : getE wr i = getE w i := by
  induction L generalizing w cl il with
  | nil =>
    simp only [passPairs, Except.ok.injEq, Prod.mk.injEq] at h
    obtain ⟨hw, -, -⟩ := h
    subst hw
    rfl
  | cons p rest ih =>
    obtain ⟨a, b⟩ := p
    simp only [passPairs] at h
    split at h
    · exact Except.noConfusion h
    · exact ih w h hdyn
    · split at h
      · exact Except.noConfusion h
      · split at h
        · exact Except.noConfusion h
        · rename_i x2 n d hc x1 w1 applied hr x0 w2 cl2 il2 hp
          simp only [Except.ok.injEq, Prod.mk.injEq] at h
          obtain ⟨hw, -, -⟩ := h
          subst hw
          have h1 : getE w1 i = getE w i := rcp_nondyn hr i hdyn
          have hdyn1 : dynOf (getE w1 i) = false := by rw [h1]; exact hdyn
          exact (ih w1 hp hdyn1).trans h1

theorem pass_contacts (dt : ℚ) (L : List (ℕ × ℕ)) (w : World) {wr : World}
    {cl : List Contact} {il : List (ℕ × ℕ)}
    (h : passPairs dt L w = .ok (wr, cl, il)) (i : ℕ)
    (hcl : ∀ c ∈ cl, c.1 ≠ i ∧ c.2.1 ≠ i) : getE wr i = getE w i := by
  induction L generalizing w cl il with
  | nil =>
    simp only [passPairs, Except.ok.injEq, Prod.mk.injEq] at h
    obtain ⟨hw, -, -⟩ := h
    subst hw
    rfl
  | cons p rest ih =>
    obtain ⟨a, b⟩ := p
    simp only [passPairs] at h
    split at h
    · exact Except.noConfusion h
    · exact ih w h hcl
    · split at h
      · exact Except.noConfusion h
      · split at h
        · exact Except.noConfusion h
        · rename_i x2 n d hc x1 w1 applied hr x0 w2 cl2 il2 hp
          simp only [Except.ok.injEq, Prod.mk.injEq] at h
          obtain ⟨hw, hcleq, -⟩ := h
          subst hw
          subst hcleq
          have hab := hcl (a, b, n, d) (List.mem_cons_self _ _)
          have h1 : getE w1 i = getE w i :=
            rcp_getE_ne hr i (Ne.symm hab.1) (Ne.symm hab.2)
          exact (ih w1 hp (fun c hc2 => hcl c (List.mem_cons_of_mem _ hc2))).trans h1

theorem pass_sublist (dt : ℚ) (L : List (ℕ × ℕ)) (w : World) {wr : World}
    {cl : List Contact} {il : List (ℕ × ℕ)}
    (h : passPairs dt L w = .ok (wr, cl, il)) : List.Sublist il L := by
  induction L generalizing w cl il with
  | nil =>
    simp only [passPairs, Except.ok.injEq, Prod.mk.injEq] at h
    obtain ⟨-, -, hil⟩ := h
    subst hil
    exact List.nil_sublist _
  | cons p rest ih =>
    obtain ⟨a, b⟩ := p
    simp only [passPairs] at h
    split at h
    · exact Except.noConfusion h
    · exact (ih w h).cons _
    · split at h
      · exact Except.noConfusion h
      · split at h
        · exact Except.noConfusion h
        · rename_i x2 n d hc x1 w1 applied hr x0 w2 cl2 il2 hp
          simp only [Except.ok.injEq, Prod.mk.injEq] at h
          obtain ⟨hw, -, hileq⟩ := h
          subst hw
          subst hileq
          have hsub := ih w1 hp
          cases applied with
          | false => simpa using hsub.cons (a, b)
          | true => simpa using hsub.cons₂ (a, b)

/-! ### Totality under well-formedness -/

theorem entityOkB_congr {e1 e2 : Entity} (hp : physStatic e1 = physStatic e2)
    (hs : e1.shape = e2.shape) : entityOkB e1 = entityOkB e2 := by
  cases h1 : e1.physics with
  | none =>
    cases h2 : e2.physics with
    | none => simp [entityOkB, hs, h1, h2]
    | some p2 => simp [physStatic, h1, h2] at hp
  | some p1 =>
    cases h2 : e2.physics with
    | none => simp [physStatic, h1, h2] at hp
    | some p2 =>
      have h5 : (p1.mass, p1.apply_gravity, p1.dynamic, p1.restitution, p1.friction)
          = (p2.mass, p2.apply_gravity, p2.dynamic, p2.restitution, p2.friction) := by
        simpa [physStatic, h1, h2] using hp
      have hm := congrArg (fun t : Option ℚ × Bool × Bool × ℚ × ℚ => t.1) h5
      have hd := congrArg (fun t : Option ℚ × Bool × Bool × ℚ × ℚ => t.2.2.1) h5
      have hr := congrArg (fun t : Option ℚ × Bool × Bool × ℚ × ℚ => t.2.2.2.1) h5
      have hf := congrArg (fun t : Option ℚ × Bool × Bool × ℚ × ℚ => t.2.2.2.2) h5
      simp only at hm hd hr hf
      simp [entityOkB, hs, h1, h2, hm, hd, hr, hf]

theorem entityOkB_rect {e : Entity} {len ht : ℚ} {c : ℚ × ℚ × ℚ}
    (h : entityOkB e = true) (hs : e.shape = .rectangle len ht c) :
    0 ≤ len ∧ 0 ≤ ht := by
  simp only [entityOkB, hs, Bool.and_eq_true, decide_eq_true_eq] at h
  exact h.1

theorem check_circle_rect_ok (cp : Vec2) (r : ℚ) (rp : Vec2) (len ht : ℚ)
    (hl : 0 ≤ len) (hh : 0 ≤ ht) :
    ∃ c, check_circle_rect cp r rp len ht = .ok c := by
  simp only [check_circle_rect]
  rw [if_neg (by push_neg; exact ⟨hl, hh⟩)]
  split_ifs <;> exact ⟨_, rfl⟩

theorem check_collision_ok {ea eb : Entity} (ha : entityOkB ea = true)
    (hb : entityOkB eb = true) : ∃ c, check_collision ea eb = .ok c := by
  simp only [check_collision]
  split_ifs with h1
  · exact ⟨_, rfl⟩
  · cases hsa : ea.shape <;> cases hsb : eb.shape
    all_goals
      first
        | exact ⟨_, rfl⟩
        | (obtain ⟨hl, hh⟩ := entityOkB_rect hb hsb
           exact check_circle_rect_ok _ _ _ _ _ hl hh)
        | (rename_i len ht c1 r c2
           obtain ⟨hl, hh⟩ := entityOkB_rect ha hsa
           obtain ⟨c, hc⟩ :=
             check_circle_rect_ok eb.transform.position r ea.transform.position len ht hl hh
           have hm : Except.map (Option.map fun nd => ((-nd.1.1, -nd.1.2), nd.2))
               (check_circle_rect eb.transform.position r ea.transform.position len ht)
               = .ok (Option.map (fun nd => ((-nd.1.1, -nd.1.2), nd.2)) c) := by
             rw [hc]
             rfl
           exact ⟨_, hm⟩)

theorem rcp_ok {w : World} {i j : ℕ} (n : Vec2) (d dt : ℚ)
    (hA : entityOkB (getE w i) = true) (hB : entityOkB (getE w j) = true) :
    ∃ r, resolve_collision_pair w i j n d dt = .ok r := by
  simp only [resolve_collision_pair]
  split_ifs with h1 h2 h3 h4 h5
  all_goals try exact ⟨_, rfl⟩
  · exact absurd h3 (not_lt.mpr (mul_nonneg (restOf_nonneg hA) (restOf_nonneg hB)))
  · exfalso
    have hd : dynOf (getE w i) = true ∨ dynOf (getE w j) = true := by
      by_cases hdi : dynOf (getE w i) = true
      · exact Or.inl hdi
      · by_cases hdj : dynOf (getE w j) = true
        · exact Or.inr hdj
        · exfalso
          apply h1
          simp only [Bool.not_eq_true] at hdi hdj
          simp [hdi, hdj]
    have htim : 0 < invMassOf (getE w i) + invMassOf (getE w j) := by
      rcases hd with hdi | hdj
      · have := invMassOf_pos_of_dyn hA hdi
        have := invMassOf_nonneg hB
        linarith
      · have := invMassOf_pos_of_dyn hB hdj
        have := invMassOf_nonneg hA
        linarith
    rw [h4.1] at htim
    exact lt_irrefl 0 htim
  · exact absurd h5 (not_lt.mpr (mul_nonneg (abs_nonneg _)
      (div_nonneg (add_nonneg (fricOf_nonneg hA) (fricOf_nonneg hB)) (by norm_num))))

theorem pass_ok (dt : ℚ) (L : List (ℕ × ℕ)) (w : World)
    (hok : ∀ k, entityOkB (getE w k) = true) :
    ∃ r, passPairs dt L w = .ok r := by
  induction L generalizing w with
  | nil => exact ⟨_, rfl⟩
  | cons p rest ih =>
    obtain ⟨a, b⟩ := p
    obtain ⟨copt, hc⟩ := check_collision_ok (hok a) (hok b)
    cases copt with
    | none =>
      obtain ⟨r, hr⟩ := ih w hok
      exact ⟨r, by simp only [passPairs, hc, hr]⟩
    | some nd =>
      obtain ⟨n, d⟩ := nd
      obtain ⟨⟨w1, applied⟩, hr⟩ := rcp_ok n d dt (hok a) (hok b)
      have hok1 : ∀ k, entityOkB (getE w1 k) = true := by
        intro k
        rw [entityOkB_congr (rcp_physStatic hr k) (rcp_shape hr k)]
        exact hok k
      obtain ⟨⟨w2, cl2, il2⟩, hp⟩ := ih w1 hok1
      exact ⟨(w2, (a, b, n, d) :: cl2, if applied then (a, b) :: il2 else il2),
        by simp only [passPairs, hc, hr, hp]⟩

/-! ### Iteration-loop lemmas -/

theorem loop_entity_data (dt : ℚ) (K : ℕ) (w : World) {wr : World}
    {cl : List Contact} {il : List (ℕ × ℕ)}
    (h : resolve_loop dt K w = .ok (wr, cl, il)) (k : ℕ) :
    physAcc (getE wr k) = physAcc (getE w k) ∧
      physStatic (getE wr k) = physStatic (getE w k) ∧
      (getE wr k).shape = (getE w k).shape := by
  induction K generalizing w cl il with
  | zero =>
    simp only [resolve_loop, Except.ok.injEq, Prod.mk.injEq] at h
    obtain ⟨hw, -, -⟩ := h
    subst hw
    exact ⟨rfl, rfl, rfl⟩
  | succ K ih =>
    simp only [resolve_loop] at h
    split at h
    · exact Except.noConfusion h
    · split at h
      · exact Except.noConfusion h
      · rename_i x1 w1 cl1 il1 hr x0 w2 cl2 il2 hp
        simp only [Except.ok.injEq, Prod.mk.injEq] at h
        obtain ⟨hw, -, -⟩ := h
        subst hw
        have hr1 : passPairs dt (allPairs w.length) w = .ok (w1, cl1, il1) := hr
        obtain ⟨h1, h2, h3⟩ := ih w1 hp
        obtain ⟨g1, g2, g3⟩ := pass_entity_data dt _ w hr1 k
        exact ⟨h1.trans g1, h2.trans g2, h3.trans g3⟩

theorem loop_nondyn (dt : ℚ) (K : ℕ) (w : World) {wr : World}
    {cl : List Contact} {il : List (ℕ × ℕ)}
    (h : resolve_loop dt K w = .ok (wr, cl, il)) (i : ℕ)
    (hdyn : dynOf (getE w i) = false) : getE wr i = getE w i := by
  induction K generalizing w cl il with
  | zero =>
    simp only [resolve_loop, Except.ok.injEq, Prod.mk.injEq] at h
    obtain ⟨hw, -, -⟩ := h
    subst hw
    rfl
  | succ K ih =>
    simp only [resolve_loop] at h
    split at h
    · exact Except.noConfusion h
    · split at h
      · exact Except.noConfusion h
      · rename_i x1 w1 cl1 il1 hr x0 w2 cl2 il2 hp
        simp only [Except.ok.injEq, Prod.mk.injEq] at h
        obtain ⟨hw, -, -⟩ := h
        subst hw
        have hr1 : passPairs dt (allPairs w.length) w = .ok (w1, cl1, il1) := hr
        have h1 : getE w1 i = getE w i := pass_nondyn dt _ w hr1 i hdyn
        have hdyn1 : dynOf (getE w1 i) = false := by rw [h1]; exact hdyn
        exact (ih w1 hp hdyn1).trans h1

theorem loop_contacts (dt : ℚ) (K : ℕ) (w : World) {wr : World}
    {cl : List Contact} {il : List (ℕ × ℕ)}
    (h : resolve_loop dt K w = .ok (wr, cl, il)) (i : ℕ)
    (hcl : ∀ c ∈ cl, c.1 ≠ i ∧ c.2.1 ≠ i) : getE wr i = getE w i := by
  induction K generalizing w cl il with
  | zero =>
    simp only [resolve_loop, Except.ok.injEq, Prod.mk.injEq] at h
    obtain ⟨hw, -, -⟩ := h
    subst hw
    rfl
  | succ K ih =>
    simp only [resolve_loop] at h
    split at h
    · exact Except.noConfusion h
    · split at h
      · exact Except.noConfusion h
      · rename_i x1 w1 cl1 il1 hr x0 w2 cl2 il2 hp
        simp only [Except.ok.injEq, Prod.mk.injEq] at h
        obtain ⟨hw, hcleq, -⟩ := h
        subst hw
        have hr1 : passPairs dt (allPairs w.length) w = .ok (w1, cl1, il1) := hr
        have hcl1 : ∀ c ∈ cl1, c.1 ≠ i ∧ c.2.1 ≠ i := by
          intro c hc
          exact hcl c (by rw [← hcleq]; exact List.mem_append_left _ hc)
        have hcl2 : ∀ c ∈ cl2, c.1 ≠ i ∧ c.2.1 ≠ i := by
          intro c hc
          exact hcl c (by rw [← hcleq]; exact List.mem_append_right _ hc)
        have h1 : getE w1 i = getE w i := pass_contacts dt _ w hr1 i hcl1
        exact (ih w1 hp hcl2).trans h1

theorem loop_ok (dt : ℚ) (K : ℕ) (w : World)
    (hok : ∀ k, entityOkB (getE w k) = true) :
    ∃ r, resolve_loop dt K w = .ok r := by
  induction K generalizing w with
  | zero => exact ⟨_, rfl⟩
  | succ K ih =>
    obtain ⟨⟨w1, cl1, il1⟩, hr⟩ := pass_ok dt (allPairs w.length) w hok
    have hok1 : ∀ k, entityOkB (getE w1 k) = true := by
      intro k
      obtain ⟨-, h2, h3⟩ := pass_entity_data dt _ w hr k
      rw [entityOkB_congr h2 h3]
      exact hok k
    obtain ⟨⟨w2, cl2, il2⟩, hp⟩ := ih w1 hok1
    have hr1 : resolve_collisions w dt = .ok (w1, cl1, il1) := hr
    exact ⟨(w2, cl1 ++ cl2, il1 ++ il2), by simp only [resolve_loop, hr1, hp]⟩

/-! ### Integration-phase lemmas -/

theorem integrate_velocity_default (s : PhysicsSystem) (dt : ℚ) :
    integrate_velocity s dt defaultEntity = defaultEntity := rfl

theorem integrate_position_default (dt : ℚ) :
    integrate_position dt defaultEntity = defaultEntity := rfl

theorem integrate_velocity_nondyn (s : PhysicsSystem) (dt : ℚ) {e : Entity}
    (h : dynOf e = false) : integrate_velocity s dt e = e := by
  cases hp : e.physics with
  | none => simp [integrate_velocity, hp]
  | some p =>
    have hd : p.dynamic = false := by simpa [dynOf, hp] using h
    simp [integrate_velocity, hp, hd]

theorem integrate_position_nondyn (dt : ℚ) {e : Entity}
    (h : dynOf e = false) : integrate_position dt e = e := by
  cases hp : e.physics with
  | none => simp [integrate_position, hp]
  | some p =>
    have hd : p.dynamic = false := by simpa [dynOf, hp] using h
    simp [integrate_position, hp, hd]

theorem integrate_velocity_data (s : PhysicsSystem) (dt : ℚ) (e : Entity) :
    physStatic (integrate_velocity s dt e) = physStatic e ∧
      (integrate_velocity s dt e).shape = e.shape ∧
      (integrate_velocity s dt e).transform = e.transform := by
  cases hp : e.physics with
  | none => simp [integrate_velocity, hp]
  | some p =>
    simp only [integrate_velocity, hp]
    split_ifs <;> simp [physStatic, hp]

theorem integrate_position_data (dt : ℚ) (e : Entity) :
    (integrate_position dt e).physics = e.physics ∧
      (integrate_position dt e).shape = e.shape := by
  cases hp : e.physics with
  | none => simp [integrate_position, hp]
  | some p =>
    simp only [integrate_position, hp]
    split_ifs <;> simp [hp]

theorem integrate_velocity_dyn_acc (s : PhysicsSystem) (dt : ℚ) {e : Entity}
    {p : Physics} (hp : e.physics = some p) (hd : p.dynamic = true) :
    physAcc (integrate_velocity s dt e) = some (0, 0) := by
  simp [integrate_velocity, hp, hd, physAcc]

theorem phase1_getE (s : PhysicsSystem) (dt : ℚ) (w : World) (i : ℕ) :
    getE (w.map (integrate_velocity s dt)) i = integrate_velocity s dt (getE w i) :=
  getE_map _ (integrate_velocity_default s dt) w i

theorem phase2_getE (dt : ℚ) (w : World) (i : ℕ) :
    getE (w.map (integrate_position dt)) i = integrate_position dt (getE w i) :=
  getE_map _ (integrate_position_default dt) w i

/-! ### Positional-correction displacement formula -/

theorem invMassOf_default : invMassOf defaultEntity = 0 := rfl

theorem in_bounds_of_invMassOf_pos {w : World} {i : ℕ}
    (h : 0 < invMassOf (getE w i)) : i < w.length := by
  by_contra hc
  rw [getE_oob w i (le_of_not_lt hc), invMassOf_default] at h
  exact lt_irrefl 0 h

theorem pc_positions (w : World) (i j : ℕ) (n : Vec2) (d : ℚ) (hij : i ≠ j)
    (hia : 0 ≤ invMassOf (getE w i)) (hib : 0 ≤ invMassOf (getE w j))
    (htim : 0 < invMassOf (getE w i) + invMassOf (getE w j)) :
    (getE (position_correction w i j n d) i).transform.position =
      ((getE w i).transform.position.1 -
         n.1 * d / (invMassOf (getE w i) + invMassOf (getE w j)) * invMassOf (getE w i),
       (getE w i).transform.position.2 -
         n.2 * d / (invMassOf (getE w i) + invMassOf (getE w j)) * invMassOf (getE w i)) ∧
    (getE (position_correction w i j n d) j).transform.position =
      ((getE w j).transform.position.1 +
         n.1 * d / (invMassOf (getE w i) + invMassOf (getE w j)) * invMassOf (getE w j),
       (getE w j).transform.position.2 +
         n.2 * d / (invMassOf (getE w i) + invMassOf (getE w j)) * invMassOf (getE w j)) := by
  simp only [position_correction]
  rw [if_pos htim]
  rcases eq_or_lt_of_le hia with hia0 | hia0 <;>
    rcases eq_or_lt_of_le hib with hib0 | hib0
  · exact absurd htim (by rw [← hia0, ← hib0]; norm_num)
  · -- side a immovable, side b moves
    have hga : (dynOf (getE w i) && decide (0 < invMassOf (getE w i))) = false := by
      rw [← hia0]
      simp
    have hgb : (dynOf (getE w j) && decide (0 < invMassOf (getE w j))) = true := by
      rw [dynOf_of_invMassOf_pos hib0]
      simp [hib0]
    have hjl : j < w.length := in_bounds_of_invMassOf_pos hib0
    rw [hga]
    simp only [Bool.false_eq_true, if_false, hgb, if_true]
    constructor
    · rw [setPos_getE_ne _ _ _ _ hij]
      rw [← hia0]
      simp
    · rw [setPos, getE_set_self _ _ _ hjl]
  · -- side a moves, side b immovable
    have hga : (dynOf (getE w i) && decide (0 < invMassOf (getE w i))) = true := by
      rw [dynOf_of_invMassOf_pos hia0]
      simp [hia0]
    have hgb : (dynOf (getE w j) && decide (0 < invMassOf (getE w j))) = false := by
      rw [← hib0]
      simp
    have hil : i < w.length := in_bounds_of_invMassOf_pos hia0
    rw [hga]
    simp only [if_true, hgb, Bool.false_eq_true, if_false]
    constructor
    · rw [setPos, getE_set_self _ _ _ hil]
    · rw [setPos_getE_ne _ _ _ _ (Ne.symm hij)]
      rw [← hib0]
      simp
  · -- both move
    have hga : (dynOf (getE w i) && decide (0 < invMassOf (getE w i))) = true := by
      rw [dynOf_of_invMassOf_pos hia0]
      simp [hia0]
    have hgb : (dynOf (getE w j) && decide (0 < invMassOf (getE w j))) = true := by
      rw [dynOf_of_invMassOf_pos hib0]
      simp [hib0]
    have hil : i < w.length := in_bounds_of_invMassOf_pos hia0
    have hjl : j < w.length := in_bounds_of_invMassOf_pos hib0
    rw [hga, hgb]
    simp only [if_true]
    constructor
    · rw [setPos_getE_ne _ _ _ _ hij, setPos, getE_set_self _ _ _ hil]
    · have hjl2 : j < (setPos w i
          ((getE w i).transform.position.1 -
             n.1 * d / (invMassOf (getE w i) + invMassOf (getE w j)) * invMassOf (getE w i),
           (getE w i).transform.position.2 -
             n.2 * d / (invMassOf (getE w i) + invMassOf (getE w j)) * invMassOf (getE w i))).length := by
        simpa [setPos, setE] using hjl
      rw [setPos, getE_set_self _ _ _ hjl2]
      simp [setPos_getE_ne _ _ _ _ (Ne.symm hij)]

/-! ### Remaining shared infrastructure -/

/-- Whether a driver run completed (no clamp panicked). -/
def isOkE {α : Type _} : Except Unit α → Bool
  | .ok _ => true
  | .error _ => false

theorem allPairs_nodup (N : ℕ) : (allPairs N).Nodup := by
  rw [allPairs, List.nodup_flatMap]
  constructor
  · intro i _
    refine List.Nodup.map ?_ ((List.drop_sublist _ _).nodup (List.nodup_range N))
    intro a b hab
    exact (Prod.mk.injEq _ _ _ _).mp hab |>.2
  · refine List.Pairwise.imp ?_ (List.nodup_range N)
    intro a b hne x hx1 hx2
    obtain ⟨j1, -, hj1⟩ := List.mem_map.mp hx1
    obtain ⟨j2, -, hj2⟩ := List.mem_map.mp hx2
    rw [← hj1] at hj2
    exact hne ((Prod.mk.injEq _ _ _ _).mp hj2).1.symm

theorem integrate_position_physAcc (dt : ℚ) (e : Entity) :
    physAcc (integrate_position dt e) = physAcc e := by
  rw [physAcc, (integrate_position_data dt e).1]
  rfl

/-! ### The scenario worlds used by the claim theorems -/

/-- Scenario of C1: circle A at the origin (radius 0.3, mass 1, velocity
(0.05, 0)) and circle B at (0.5, 0) (radius 0.2, mass 1, at rest), both
dynamic with restitution 0.8 and gravity off so the motion is purely
horizontal. -/
def c1World : World :=
  [{ transform := Transform.new (0, 0),
     physics := some { Physics.new with
                       velocity := (1/20, 0)
                       apply_gravity := false },
     shape := .circle (3/10) (0, 0, 0), clickable := none },
   { transform := Transform.new (1/2, 0),
     physics := some { Physics.new with apply_gravity := false },
     shape := .circle (1/5) (0, 0, 0), clickable := none }]

/-! ### Helpers for evaluating concrete runs -/

theorem ratSqrt_sq {r : ℚ} (h : 0 ≤ r) : ratSqrt (r * r) = r := by
  have hn : 0 ≤ r.num := Rat.num_nonneg.mpr h
  rw [ratSqrt, Rat.mul_self_num, Rat.mul_self_den]
  obtain ⟨n, hn2⟩ := Int.eq_ofNat_of_zero_le hn
  rw [hn2]
  rw [show ((n : ℤ) * n).toNat = n * n from by rw [← Int.ofNat_mul]; exact Int.toNat_ofNat _]
  rw [Nat.sqrt_eq, Nat.sqrt_eq]
  rw [show ((n : ℕ) : ℚ) = ((r.num : ℤ) : ℚ) from by rw [hn2]; push_cast; ring]
  exact Rat.num_div_den r

theorem passPairs_nil (dt : ℚ) (w : World) : passPairs dt [] w = .ok (w, [], []) := rfl

theorem passPairs_cons_none (dt : ℚ) (a b : ℕ) (rest : List (ℕ × ℕ)) (w : World)
    (h : check_collision (getE w a) (getE w b) = .ok none) :
    passPairs dt ((a, b) :: rest) w = passPairs dt rest w := by
  simp [passPairs, h]

theorem passPairs_cons_some (dt : ℚ) (a b : ℕ) (rest : List (ℕ × ℕ)) (w : World)
    (n : Vec2) (d : ℚ) (w1 : World) (applied : Bool)
    (r2 : World × List Contact × List (ℕ × ℕ))
    (h1 : check_collision (getE w a) (getE w b) = .ok (some (n, d)))
    (h2 : resolve_collision_pair w a b n d dt = .ok (w1, applied))
    (h3 : passPairs dt rest w1 = .ok r2) :
    passPairs dt ((a, b) :: rest) w =
      .ok (r2.1, (a, b, n, d) :: r2.2.1,
           if applied then (a, b) :: r2.2.2 else r2.2.2) := by
  obtain ⟨w2, cl, il⟩ := r2
  simp [passPairs, h1, h2, h3]

theorem resolve_loop_zero (dt : ℚ) (w : World) :
    resolve_loop dt 0 w = .ok (w, [], []) := rfl

theorem resolve_loop_succ (dt : ℚ) (K : ℕ) (w w1 : World) (cl1 : List Contact)
    (il1 : List (ℕ × ℕ)) (r2 : World × List Contact × List (ℕ × ℕ))
    (h1 : resolve_collisions w dt = .ok (w1, cl1, il1))
    (h2 : resolve_loop dt K w1 = .ok r2) :
    resolve_loop dt (K + 1) w = .ok (r2.1, cl1 ++ r2.2.1, il1 ++ r2.2.2) := by
  obtain ⟨w2, cl2, il2⟩ := r2
  simp [resolve_loop, h1, h2]

theorem resolve_collisions_eq (w : World) (dt : ℚ) :
    resolve_collisions w dt = passPairs dt (allPairs w.length) w := rfl

theorem update_eq (s : PhysicsSystem) (w : World) (dt : ℚ) :
    update s w dt = resolve_loop dt s.collision_iterations
      ((w.map (integrate_velocity s dt)).map (integrate_position dt)) := rfl

theorem allPairs_zero : allPairs 0 = [] := rfl

theorem allPairs_one : allPairs 1 = [] := rfl

theorem allPairs_two : allPairs 2 = [(0, 1)] := by
  simp [allPairs, List.range_succ]

theorem allPairs_three : allPairs 3 = [(0, 1), (0, 2), (1, 2)] := by
  simp [allPairs, List.range_succ]

def c1A1 : Entity :=
  { transform := Transform.new (0, 0),
    physics := some { Physics.new with
                      velocity := (49/1000, 0)
                      apply_gravity := false },
    shape := .circle (3/10) (0, 0, 0), clickable := none }

def c1B1 : Entity :=
  { transform := Transform.new (1/2, 0),
    physics := some { Physics.new with apply_gravity := false },
    shape := .circle (1/5) (0, 0, 0), clickable := none }

def c1A2 : Entity := { c1A1 with transform := { c1A1.transform with position := (49/1000, 0) } }

def c1A3 : Entity := { c1A1 with transform := { c1A1.transform with position := (49/2000, 0) } }

def c1B3 : Entity := { c1B1 with transform := { c1B1.transform with position := (1049/2000, 0) } }

/-- C1.  The spec scenario: once the centers approach within 0.5, a contact
with unit normal (1, 0) must be produced, and after its resolution A's
x-velocity must be ≤ 0 while B's must be > 0.  Stepping the embedded driver
with `dt = 1 s` produces exactly that contact (normal (1, 0), depth 0.049),
but the resolver misclassifies the approaching pair as separating: it
computes `rel_vel = vel_a - vel_b` with the normal pointing from A to B, so
`vel_along_normal = 0.049 > 0` takes the early return that the source
comments "Objects separating - no impulse needed", and no impulse is applied.
A's x-velocity stays 0.049 > 0 and B's stays 0, contradicting the claim and
the code's own comment.  The ghost logs confirm one contact and zero applied
impulses. -/
theorem c1_scenario_contact_but_no_bounce :
    (update PhysicsSystem.new c1World 1).toOption.map
        (fun r => ((getE r.1 0).physics.map Physics.velocity,
                   (getE r.1 1).physics.map Physics.velocity, r.2.1, r.2.2))
      = some (some ((49 : ℚ)/1000, (0 : ℚ)), some ((0 : ℚ), (0 : ℚ)),
              [(0, 1, ((1 : ℚ), (0 : ℚ)), (49 : ℚ)/1000)], ([] : List (ℕ × ℕ))) ∧
    (0 : ℚ) < 49/1000 := by
  have hs1 : ratSqrt (203401/1000000 : ℚ) = 451/1000 := by
    rw [show (203401/1000000 : ℚ) = (451/1000) * (451/1000) by norm_num]
    exact ratSqrt_sq (by norm_num)
  have hph1 : c1World.map (integrate_velocity PhysicsSystem.new 1) = [c1A1, c1B1] := by
    norm_num [c1World, integrate_velocity, PhysicsSystem.new, Physics.new, Transform.new,
      c1A1, c1B1]
  have hph2 : ([c1A1, c1B1] : World).map (integrate_position 1) = [c1A2, c1B1] := by
    norm_num [integrate_position, Physics.new, Transform.new, c1A1, c1B1, c1A2]
  have hchk : check_collision (getE [c1A2, c1B1] 0) (getE [c1A2, c1B1] 1)
      = .ok (some (((1 : ℚ), (0 : ℚ)), 49/1000)) := by
    norm_num [check_collision, check_circle_circle, getE, c1A2, c1A1, c1B1,
      Physics.new, Transform.new, hs1]
  have hrcp : resolve_collision_pair [c1A2, c1B1] 0 1 ((1 : ℚ), (0 : ℚ)) (49/1000) 1
      = .ok ([c1A3, c1B3], false) := by
    norm_num [resolve_collision_pair, position_correction, getE, setPos, setE, setVel,
      dynOf, invMassOf, massOf, restOf, fricOf, velOf,
      c1A2, c1A1, c1B1, c1A3, c1B3, Physics.new, Transform.new]
  have hpass1 : resolve_collisions [c1A2, c1B1] 1
      = .ok ([c1A3, c1B3], [(0, 1, ((1 : ℚ), (0 : ℚ)), (49 : ℚ)/1000)], []) := by
    rw [resolve_collisions_eq]
    have := passPairs_cons_some 1 0 1 [] [c1A2, c1B1] ((1 : ℚ), (0 : ℚ)) (49/1000)
      [c1A3, c1B3] false ([c1A3, c1B3], [], []) hchk hrcp (passPairs_nil 1 _)
    simpa [show allPairs (List.length [c1A2, c1B1]) = [(0, 1)] from allPairs_two] using this
  have hchk2 : check_collision (getE [c1A3, c1B3] 0) (getE [c1A3, c1B3] 1) = .ok none := by
    norm_num [check_collision, check_circle_circle, getE, c1A3, c1A1, c1B3, c1B1,
      Physics.new, Transform.new]
  have hpass2 : resolve_collisions [c1A3, c1B3] 1 = .ok ([c1A3, c1B3], [], []) := by
    rw [resolve_collisions_eq]
    rw [show allPairs (List.length [c1A3, c1B3]) = [(0, 1)] from allPairs_two]
    rw [passPairs_cons_none 1 0 1 [] _ hchk2]
    exact passPairs_nil 1 _
  have hloop : resolve_loop 1 4 [c1A2, c1B1]
      = .ok ([c1A3, c1B3], [(0, 1, ((1 : ℚ), (0 : ℚ)), (49 : ℚ)/1000)], []) := by
    have l0 := resolve_loop_zero 1 ([c1A3, c1B3] : World)
    have l1 := resolve_loop_succ 1 0 _ _ _ _ _ hpass2 l0
    have l2 := resolve_loop_succ 1 1 _ _ _ _ _ hpass2 l1
    have l3 := resolve_loop_succ 1 2 _ _ _ _ _ hpass2 l2
    have l4 := resolve_loop_succ 1 3 _ _ _ _ _ hpass1 l3
    simpa using l4
  have hupd : update PhysicsSystem.new c1World 1
      = .ok ([c1A3, c1B3], [(0, 1, ((1 : ℚ), (0 : ℚ)), (49 : ℚ)/1000)], []) := by
    rw [update_eq, hph1, hph2]
    exact hloop
  constructor
  · rw [hupd]
    norm_num [getE, c1A3, c1A1, c1B3, c1B1, Physics.new, Except.toOption]
  · norm_num


/-- One of the three identical dynamic circles of the C2 scenario: radius
0.5, mass 1, restitution 0.5, friction 0.5, gravity off, at `(x, 0)` with
velocity `(vx, 0)`. -/
def c2Ent (x vx : ℚ) : Entity :=
  { transform := Transform.new (x, 0),
    physics := some { Physics.new with
                      velocity := (vx, 0)
                      apply_gravity := false
                      restitution := 1/2 },
    shape := .circle (1/2) (0, 0, 0), clickable := none }

/-- Scenario of C2: a chain of three overlapping circles; the leftmost moves
left.  The initial x-velocity -50/49 becomes exactly -1 after air damping. -/
def c2World : World := [c2Ent 0 (-50/49), c2Ent (9/10) 0, c2Ent (9/5) 0]

/-- Number of times the velocity-impulse block ran for pair `p` during a
completed driver call (0 if the run aborted). -/
def impulse_count (r : Except Unit (World × List Contact × List (ℕ × ℕ)))
    (p : ℕ × ℕ) : ℕ :=
  match r with
  | .ok (_, _, il) => il.count p
  | .error _ => 0

/-- C2 (counterexample).  The claim describes a per-tick "impulse already
applied" pair set that limits each unordered pair to one velocity impulse per
driver call.  No such set exists in the code: in this three-circle chain the
positional correction of the neighbouring contact (1, 2) pushes circle 1 back
into circle 0 after every resolution, so the pair (0, 1) receives a velocity
impulse in all four collision iterations of a single `update` call — the
ghost impulse log contains (0, 1) four times. -/
theorem c2_pair_impulse_applied_four_times :
    impulse_count (update PhysicsSystem.new c2World 0) (0, 1) = 4 ∧
      ¬ impulse_count (update PhysicsSystem.new c2World 0) (0, 1) ≤ 1 := by
  have hre : ratSqrt (1/4 : ℚ) = 1/2 := by
    rw [show (1/4 : ℚ) = (1/2) * (1/2) by norm_num]
    exact ratSqrt_sq (by norm_num)
  have hs0 : ratSqrt (81/100 : ℚ) = 9/10 := by
    rw [show (81/100 : ℚ) = (9/10) * (9/10) by norm_num]
    exact ratSqrt_sq (by norm_num)
  have hs1 : ratSqrt (289/400 : ℚ) = 17/20 := by
    rw [show (289/400 : ℚ) = (17/20) * (17/20) by norm_num]
    exact ratSqrt_sq (by norm_num)
  have hs2 : ratSqrt (1369/1600 : ℚ) = 37/40 := by
    rw [show (1369/1600 : ℚ) = (37/40) * (37/40) by norm_num]
    exact ratSqrt_sq (by norm_num)
  have hs3 : ratSqrt (5929/6400 : ℚ) = 77/80 := by
    rw [show (5929/6400 : ℚ) = (77/80) * (77/80) by norm_num]
    exact ratSqrt_sq (by norm_num)
  have hs4 : ratSqrt (24649/25600 : ℚ) = 157/160 := by
    rw [show (24649/25600 : ℚ) = (157/160) * (157/160) by norm_num]
    exact ratSqrt_sq (by norm_num)
  have hs5 : ratSqrt (100489/102400 : ℚ) = 317/320 := by
    rw [show (100489/102400 : ℚ) = (317/320) * (317/320) by norm_num]
    exact ratSqrt_sq (by norm_num)
  have hs6 : ratSqrt (405769/409600 : ℚ) = 637/640 := by
    rw [show (405769/409600 : ℚ) = (637/640) * (637/640) by norm_num]
    exact ratSqrt_sq (by norm_num)
  have hs7 : ratSqrt (1630729/1638400 : ℚ) = 1277/1280 := by
    rw [show (1630729/1638400 : ℚ) = (1277/1280) * (1277/1280) by norm_num]
    exact ratSqrt_sq (by norm_num)
  have hci0a : check_collision (getE [c2Ent (0) (-1), c2Ent (9/10) (0), c2Ent (9/5) (0)] 0) (getE [c2Ent (0) (-1), c2Ent (9/10) (0), c2Ent (9/5) (0)] 1)
      = .ok (some (((1 : ℚ), (0 : ℚ)), (1/10))) := by
    norm_num [check_collision, check_circle_circle, getE, c2Ent, Physics.new, Transform.new, hs0]
  have hri0a : resolve_collision_pair [c2Ent (0) (-1), c2Ent (9/10) (0), c2Ent (9/5) (0)] 0 1 ((1 : ℚ), (0 : ℚ)) (1/10) 0
      = .ok ([c2Ent (-1/20) (-7/4), c2Ent (19/20) (3/4), c2Ent (9/5) (0)], true) := by
    norm_num [resolve_collision_pair, apply_impulse, position_correction, clampQ, getE, setPos, setE, setVel, dynOf, invMassOf, massOf, restOf, fricOf, velOf, c2Ent, Physics.new, Transform.new, hre]
  have hci0b : check_collision (getE [c2Ent (-1/20) (-7/4), c2Ent (19/20) (3/4), c2Ent (9/5) (0)] 0) (getE [c2Ent (-1/20) (-7/4), c2Ent (19/20) (3/4), c2Ent (9/5) (0)] 2) = .ok none := by
    norm_num [check_collision, check_circle_circle, getE, c2Ent, Physics.new, Transform.new]
  have hci0c : check_collision (getE [c2Ent (-1/20) (-7/4), c2Ent (19/20) (3/4), c2Ent (9/5) (0)] 1) (getE [c2Ent (-1/20) (-7/4), c2Ent (19/20) (3/4), c2Ent (9/5) (0)] 2)
      = .ok (some (((1 : ℚ), (0 : ℚ)), (3/20))) := by
    norm_num [check_collision, check_circle_circle, getE, c2Ent, Physics.new, Transform.new, hs1]
  have hri0c : resolve_collision_pair [c2Ent (-1/20) (-7/4), c2Ent (19/20) (3/4), c2Ent (9/5) (0)] 1 2 ((1 : ℚ), (0 : ℚ)) (3/20) 0
      = .ok ([c2Ent (-1/20) (-7/4), c2Ent (7/8) (3/4), c2Ent (15/8) (0)], false) := by
    norm_num [resolve_collision_pair, apply_impulse, position_correction, clampQ, getE, setPos, setE, setVel, dynOf, invMassOf, massOf, restOf, fricOf, velOf, c2Ent, Physics.new, Transform.new]
  have hqi0a : passPairs 0 [(1, 2)] [c2Ent (-1/20) (-7/4), c2Ent (19/20) (3/4), c2Ent (9/5) (0)]
      = .ok ([c2Ent (-1/20) (-7/4), c2Ent (7/8) (3/4), c2Ent (15/8) (0)], [(1, 2, ((1 : ℚ), (0 : ℚ)), (3/20))], []) := by
    have := passPairs_cons_some 0 1 2 [] [c2Ent (-1/20) (-7/4), c2Ent (19/20) (3/4), c2Ent (9/5) (0)] ((1 : ℚ), (0 : ℚ)) (3/20)
      [c2Ent (-1/20) (-7/4), c2Ent (7/8) (3/4), c2Ent (15/8) (0)] false ([c2Ent (-1/20) (-7/4), c2Ent (7/8) (3/4), c2Ent (15/8) (0)], [], []) hci0c hri0c (passPairs_nil 0 _)
    simpa using this
  have hqi0b : passPairs 0 [(0, 2), (1, 2)] [c2Ent (-1/20) (-7/4), c2Ent (19/20) (3/4), c2Ent (9/5) (0)]
      = .ok ([c2Ent (-1/20) (-7/4), c2Ent (7/8) (3/4), c2Ent (15/8) (0)], [(1, 2, ((1 : ℚ), (0 : ℚ)), (3/20))], []) := by
    rw [passPairs_cons_none 0 0 2 _ _ hci0b]
    exact hqi0a
  have hpassi0 : resolve_collisions [c2Ent (0) (-1), c2Ent (9/10) (0), c2Ent (9/5) (0)] 0
      = .ok ([c2Ent (-1/20) (-7/4), c2Ent (7/8) (3/4), c2Ent (15/8) (0)], [(0, 1, ((1 : ℚ), (0 : ℚ)), (1/10)), (1, 2, ((1 : ℚ), (0 : ℚ)), (3/20))], [(0, 1)]) := by
    rw [resolve_collisions_eq]
    rw [show allPairs (List.length [c2Ent (0) (-1), c2Ent (9/10) (0), c2Ent (9/5) (0)]) = [(0, 1), (0, 2), (1, 2)] from allPairs_three]
    have := passPairs_cons_some 0 0 1 [(0, 2), (1, 2)] [c2Ent (0) (-1), c2Ent (9/10) (0), c2Ent (9/5) (0)] ((1 : ℚ), (0 : ℚ)) (1/10)
      [c2Ent (-1/20) (-7/4), c2Ent (19/20) (3/4), c2Ent (9/5) (0)] true ([c2Ent (-1/20) (-7/4), c2Ent (7/8) (3/4), c2Ent (15/8) (0)], [(1, 2, ((1 : ℚ), (0 : ℚ)), (3/20))], []) hci0a hri0a hqi0b
    simpa using this
  have hci1a : check_collision (getE [c2Ent (-1/20) (-7/4), c2Ent (7/8) (3/4), c2Ent (15/8) (0)] 0) (getE [c2Ent (-1/20) (-7/4), c2Ent (7/8) (3/4), c2Ent (15/8) (0)] 1)
      = .ok (some (((1 : ℚ), (0 : ℚ)), (3/40))) := by
    norm_num [check_collision, check_circle_circle, getE, c2Ent, Physics.new, Transform.new, hs2]
  have hri1a : resolve_collision_pair [c2Ent (-1/20) (-7/4), c2Ent (7/8) (3/4), c2Ent (15/8) (0)] 0 1 ((1 : ℚ), (0 : ℚ)) (3/40) 0
      = .ok ([c2Ent (-7/80) (-29/8), c2Ent (73/80) (21/8), c2Ent (15/8) (0)], true) := by
    norm_num [resolve_collision_pair, apply_impulse, position_correction, clampQ, getE, setPos, setE, setVel, dynOf, invMassOf, massOf, restOf, fricOf, velOf, c2Ent, Physics.new, Transform.new, hre]
  have hci1b : check_collision (getE [c2Ent (-7/80) (-29/8), c2Ent (73/80) (21/8), c2Ent (15/8) (0)] 0) (getE [c2Ent (-7/80) (-29/8), c2Ent (73/80) (21/8), c2Ent (15/8) (0)] 2) = .ok none := by
    norm_num [check_collision, check_circle_circle, getE, c2Ent, Physics.new, Transform.new]
  have hci1c : check_collision (getE [c2Ent (-7/80) (-29/8), c2Ent (73/80) (21/8), c2Ent (15/8) (0)] 1) (getE [c2Ent (-7/80) (-29/8), c2Ent (73/80) (21/8), c2Ent (15/8) (0)] 2)
      = .ok (some (((1 : ℚ), (0 : ℚ)), (3/80))) := by
    norm_num [check_collision, check_circle_circle, getE, c2Ent, Physics.new, Transform.new, hs3]
  have hri1c : resolve_collision_pair [c2Ent (-7/80) (-29/8), c2Ent (73/80) (21/8), c2Ent (15/8) (0)] 1 2 ((1 : ℚ), (0 : ℚ)) (3/80) 0
      = .ok ([c2Ent (-7/80) (-29/8), c2Ent (143/160) (21/8), c2Ent (303/160) (0)], false) := by
    norm_num [resolve_collision_pair, apply_impulse, position_correction, clampQ, getE, setPos, setE, setVel, dynOf, invMassOf, massOf, restOf, fricOf, velOf, c2Ent, Physics.new, Transform.new]
  have hqi1a : passPairs 0 [(1, 2)] [c2Ent (-7/80) (-29/8), c2Ent (73/80) (21/8), c2Ent (15/8) (0)]
      = .ok ([c2Ent (-7/80) (-29/8), c2Ent (143/160) (21/8), c2Ent (303/160) (0)], [(1, 2, ((1 : ℚ), (0 : ℚ)), (3/80))], []) := by
    have := passPairs_cons_some 0 1 2 [] [c2Ent (-7/80) (-29/8), c2Ent (73/80) (21/8), c2Ent (15/8) (0)] ((1 : ℚ), (0 : ℚ)) (3/80)
      [c2Ent (-7/80) (-29/8), c2Ent (143/160) (21/8), c2Ent (303/160) (0)] false ([c2Ent (-7/80) (-29/8), c2Ent (143/160) (21/8), c2Ent (303/160) (0)], [], []) hci1c hri1c (passPairs_nil 0 _)
    simpa using this
  have hqi1b : passPairs 0 [(0, 2), (1, 2)] [c2Ent (-7/80) (-29/8), c2Ent (73/80) (21/8), c2Ent (15/8) (0)]
      = .ok ([c2Ent (-7/80) (-29/8), c2Ent (143/160) (21/8), c2Ent (303/160) (0)], [(1, 2, ((1 : ℚ), (0 : ℚ)), (3/80))], []) := by
    rw [passPairs_cons_none 0 0 2 _ _ hci1b]
    exact hqi1a
  have hpassi1 : resolve_collisions [c2Ent (-1/20) (-7/4), c2Ent (7/8) (3/4), c2Ent (15/8) (0)] 0
      = .ok ([c2Ent (-7/80) (-29/8), c2Ent (143/160) (21/8), c2Ent (303/160) (0)], [(0, 1, ((1 : ℚ), (0 : ℚ)), (3/40)), (1, 2, ((1 : ℚ), (0 : ℚ)), (3/80))], [(0, 1)]) := by
    rw [resolve_collisions_eq]
    rw [show allPairs (List.length [c2Ent (-1/20) (-7/4), c2Ent (7/8) (3/4), c2Ent (15/8) (0)]) = [(0, 1), (0, 2), (1, 2)] from allPairs_three]
    have := passPairs_cons_some 0 0 1 [(0, 2), (1, 2)] [c2Ent (-1/20) (-7/4), c2Ent (7/8) (3/4), c2Ent (15/8) (0)] ((1 : ℚ), (0 : ℚ)) (3/40)
      [c2Ent (-7/80) (-29/8), c2Ent (73/80) (21/8), c2Ent (15/8) (0)] true ([c2Ent (-7/80) (-29/8), c2Ent (143/160) (21/8), c2Ent (303/160) (0)], [(1, 2, ((1 : ℚ), (0 : ℚ)), (3/80))], []) hci1a hri1a hqi1b
    simpa using this
  have hci2a : check_collision (getE [c2Ent (-7/80) (-29/8), c2Ent (143/160) (21/8), c2Ent (303/160) (0)] 0) (getE [c2Ent (-7/80) (-29/8), c2Ent (143/160) (21/8), c2Ent (303/160) (0)] 1)
      = .ok (some (((1 : ℚ), (0 : ℚ)), (3/160))) := by
    norm_num [check_collision, check_circle_circle, getE, c2Ent, Physics.new, Transform.new, hs4]
  have hri2a : resolve_collision_pair [c2Ent (-7/80) (-29/8), c2Ent (143/160) (21/8), c2Ent (303/160) (0)] 0 1 ((1 : ℚ), (0 : ℚ)) (3/160) 0
      = .ok ([c2Ent (-31/320) (-133/16), c2Ent (289/320) (117/16), c2Ent (303/160) (0)], true) := by
    norm_num [resolve_collision_pair, apply_impulse, position_correction, clampQ, getE, setPos, setE, setVel, dynOf, invMassOf, massOf, restOf, fricOf, velOf, c2Ent, Physics.new, Transform.new, hre]
  have hci2b : check_collision (getE [c2Ent (-31/320) (-133/16), c2Ent (289/320) (117/16), c2Ent (303/160) (0)] 0) (getE [c2Ent (-31/320) (-133/16), c2Ent (289/320) (117/16), c2Ent (303/160) (0)] 2) = .ok none := by
    norm_num [check_collision, check_circle_circle, getE, c2Ent, Physics.new, Transform.new]
  have hci2c : check_collision (getE [c2Ent (-31/320) (-133/16), c2Ent (289/320) (117/16), c2Ent (303/160) (0)] 1) (getE [c2Ent (-31/320) (-133/16), c2Ent (289/320) (117/16), c2Ent (303/160) (0)] 2)
      = .ok (some (((1 : ℚ), (0 : ℚ)), (3/320))) := by
    norm_num [check_collision, check_circle_circle, getE, c2Ent, Physics.new, Transform.new, hs5]
  have hri2c : resolve_collision_pair [c2Ent (-31/320) (-133/16), c2Ent (289/320) (117/16), c2Ent (303/160) (0)] 1 2 ((1 : ℚ), (0 : ℚ)) (3/320) 0
      = .ok ([c2Ent (-31/320) (-133/16), c2Ent (115/128) (117/16), c2Ent (243/128) (0)], false) := by
    norm_num [resolve_collision_pair, apply_impulse, position_correction, clampQ, getE, setPos, setE, setVel, dynOf, invMassOf, massOf, restOf, fricOf, velOf, c2Ent, Physics.new, Transform.new]
  have hqi2a : passPairs 0 [(1, 2)] [c2Ent (-31/320) (-133/16), c2Ent (289/320) (117/16), c2Ent (303/160) (0)]
      = .ok ([c2Ent (-31/320) (-133/16), c2Ent (115/128) (117/16), c2Ent (243/128) (0)], [(1, 2, ((1 : ℚ), (0 : ℚ)), (3/320))], []) := by
    have := passPairs_cons_some 0 1 2 [] [c2Ent (-31/320) (-133/16), c2Ent (289/320) (117/16), c2Ent (303/160) (0)] ((1 : ℚ), (0 : ℚ)) (3/320)
      [c2Ent (-31/320) (-133/16), c2Ent (115/128) (117/16), c2Ent (243/128) (0)] false ([c2Ent (-31/320) (-133/16), c2Ent (115/128) (117/16), c2Ent (243/128) (0)], [], []) hci2c hri2c (passPairs_nil 0 _)
    simpa using this
  have hqi2b : passPairs 0 [(0, 2), (1, 2)] [c2Ent (-31/320) (-133/16), c2Ent (289/320) (117/16), c2Ent (303/160) (0)]
      = .ok ([c2Ent (-31/320) (-133/16), c2Ent (115/128) (117/16), c2Ent (243/128) (0)], [(1, 2, ((1 : ℚ), (0 : ℚ)), (3/320))], []) := by
    rw [passPairs_cons_none 0 0 2 _ _ hci2b]
    exact hqi2a
  have hpassi2 : resolve_collisions [c2Ent (-7/80) (-29/8), c2Ent (143/160) (21/8), c2Ent (303/160) (0)] 0
      = .ok ([c2Ent (-31/320) (-133/16), c2Ent (115/128) (117/16), c2Ent (243/128) (0)], [(0, 1, ((1 : ℚ), (0 : ℚ)), (3/160)), (1, 2, ((1 : ℚ), (0 : ℚ)), (3/320))], [(0, 1)]) := by
    rw [resolve_collisions_eq]
    rw [show allPairs (List.length [c2Ent (-7/80) (-29/8), c2Ent (143/160) (21/8), c2Ent (303/160) (0)]) = [(0, 1), (0, 2), (1, 2)] from allPairs_three]
    have := passPairs_cons_some 0 0 1 [(0, 2), (1, 2)] [c2Ent (-7/80) (-29/8), c2Ent (143/160) (21/8), c2Ent (303/160) (0)] ((1 : ℚ), (0 : ℚ)) (3/160)
      [c2Ent (-31/320) (-133/16), c2Ent (289/320) (117/16), c2Ent (303/160) (0)] true ([c2Ent (-31/320) (-133/16), c2Ent (115/128) (117/16), c2Ent (243/128) (0)], [(1, 2, ((1 : ℚ), (0 : ℚ)), (3/320))], []) hci2a hri2a hqi2b
    simpa using this
  have hci3a : check_collision (getE [c2Ent (-31/320) (-133/16), c2Ent (115/128) (117/16), c2Ent (243/128) (0)] 0) (getE [c2Ent (-31/320) (-133/16), c2Ent (115/128) (117/16), c2Ent (243/128) (0)] 1)
      = .ok (some (((1 : ℚ), (0 : ℚ)), (3/640))) := by
    norm_num [check_collision, check_circle_circle, getE, c2Ent, Physics.new, Transform.new, hs6]
  have hri3a : resolve_collision_pair [c2Ent (-31/320) (-133/16), c2Ent (115/128) (117/16), c2Ent (243/128) (0)] 0 1 ((1 : ℚ), (0 : ℚ)) (3/640) 0
      = .ok ([c2Ent (-127/1280) (-641/32), c2Ent (1153/1280) (609/32), c2Ent (243/128) (0)], true) := by
    norm_num [resolve_collision_pair, apply_impulse, position_correction, clampQ, getE, setPos, setE, setVel, dynOf, invMassOf, massOf, restOf, fricOf, velOf, c2Ent, Physics.new, Transform.new, hre]
  have hci3b : check_collision (getE [c2Ent (-127/1280) (-641/32), c2Ent (1153/1280) (609/32), c2Ent (243/128) (0)] 0) (getE [c2Ent (-127/1280) (-641/32), c2Ent (1153/1280) (609/32), c2Ent (243/128) (0)] 2) = .ok none := by
    norm_num [check_collision, check_circle_circle, getE, c2Ent, Physics.new, Transform.new]
  have hci3c : check_collision (getE [c2Ent (-127/1280) (-641/32), c2Ent (1153/1280) (609/32), c2Ent (243/128) (0)] 1) (getE [c2Ent (-127/1280) (-641/32), c2Ent (1153/1280) (609/32), c2Ent (243/128) (0)] 2)
      = .ok (some (((1 : ℚ), (0 : ℚ)), (3/1280))) := by
    norm_num [check_collision, check_circle_circle, getE, c2Ent, Physics.new, Transform.new, hs7]
  have hri3c : resolve_collision_pair [c2Ent (-127/1280) (-641/32), c2Ent (1153/1280) (609/32), c2Ent (243/128) (0)] 1 2 ((1 : ℚ), (0 : ℚ)) (3/1280) 0
      = .ok ([c2Ent (-127/1280) (-641/32), c2Ent (2303/2560) (609/32), c2Ent (4863/2560) (0)], false) := by
    norm_num [resolve_collision_pair, apply_impulse, position_correction, clampQ, getE, setPos, setE, setVel, dynOf, invMassOf, massOf, restOf, fricOf, velOf, c2Ent, Physics.new, Transform.new]
  have hqi3a : passPairs 0 [(1, 2)] [c2Ent (-127/1280) (-641/32), c2Ent (1153/1280) (609/32), c2Ent (243/128) (0)]
      = .ok ([c2Ent (-127/1280) (-641/32), c2Ent (2303/2560) (609/32), c2Ent (4863/2560) (0)], [(1, 2, ((1 : ℚ), (0 : ℚ)), (3/1280))], []) := by
    have := passPairs_cons_some 0 1 2 [] [c2Ent (-127/1280) (-641/32), c2Ent (1153/1280) (609/32), c2Ent (243/128) (0)] ((1 : ℚ), (0 : ℚ)) (3/1280)
      [c2Ent (-127/1280) (-641/32), c2Ent (2303/2560) (609/32), c2Ent (4863/2560) (0)] false ([c2Ent (-127/1280) (-641/32), c2Ent (2303/2560) (609/32), c2Ent (4863/2560) (0)], [], []) hci3c hri3c (passPairs_nil 0 _)
    simpa using this
  have hqi3b : passPairs 0 [(0, 2), (1, 2)] [c2Ent (-127/1280) (-641/32), c2Ent (1153/1280) (609/32), c2Ent (243/128) (0)]
      = .ok ([c2Ent (-127/1280) (-641/32), c2Ent (2303/2560) (609/32), c2Ent (4863/2560) (0)], [(1, 2, ((1 : ℚ), (0 : ℚ)), (3/1280))], []) := by
    rw [passPairs_cons_none 0 0 2 _ _ hci3b]
    exact hqi3a
  have hpassi3 : resolve_collisions [c2Ent (-31/320) (-133/16), c2Ent (115/128) (117/16), c2Ent (243/128) (0)] 0
      = .ok ([c2Ent (-127/1280) (-641/32), c2Ent (2303/2560) (609/32), c2Ent (4863/2560) (0)], [(0, 1, ((1 : ℚ), (0 : ℚ)), (3/640)), (1, 2, ((1 : ℚ), (0 : ℚ)), (3/1280))], [(0, 1)]) := by
    rw [resolve_collisions_eq]
    rw [show allPairs (List.length [c2Ent (-31/320) (-133/16), c2Ent (115/128) (117/16), c2Ent (243/128) (0)]) = [(0, 1), (0, 2), (1, 2)] from allPairs_three]
    have := passPairs_cons_some 0 0 1 [(0, 2), (1, 2)] [c2Ent (-31/320) (-133/16), c2Ent (115/128) (117/16), c2Ent (243/128) (0)] ((1 : ℚ), (0 : ℚ)) (3/640)
      [c2Ent (-127/1280) (-641/32), c2Ent (1153/1280) (609/32), c2Ent (243/128) (0)] true ([c2Ent (-127/1280) (-641/32), c2Ent (2303/2560) (609/32), c2Ent (4863/2560) (0)], [(1, 2, ((1 : ℚ), (0 : ℚ)), (3/1280))], []) hci3a hri3a hqi3b
    simpa using this
  have hph1 : c2World.map (integrate_velocity PhysicsSystem.new 0)
      = [c2Ent (0) (-1), c2Ent (9/10) (0), c2Ent (9/5) (0)] := by
    norm_num [c2World, c2Ent, integrate_velocity, PhysicsSystem.new, Physics.new,
      Transform.new]
  have hph2 : ([c2Ent (0) (-1), c2Ent (9/10) (0), c2Ent (9/5) (0)] : World).map
      (integrate_position 0) = [c2Ent (0) (-1), c2Ent (9/10) (0), c2Ent (9/5) (0)] := by
    norm_num [c2Ent, integrate_position, Physics.new, Transform.new]
  have hloop : resolve_loop 0 4 [c2Ent (0) (-1), c2Ent (9/10) (0), c2Ent (9/5) (0)]
      = .ok ([c2Ent (-127/1280) (-641/32), c2Ent (2303/2560) (609/32), c2Ent (4863/2560) (0)],
             [(0, 1, ((1 : ℚ), (0 : ℚ)), (1/10)), (1, 2, ((1 : ℚ), (0 : ℚ)), (3/20)),
              (0, 1, ((1 : ℚ), (0 : ℚ)), (3/40)), (1, 2, ((1 : ℚ), (0 : ℚ)), (3/80)),
              (0, 1, ((1 : ℚ), (0 : ℚ)), (3/160)), (1, 2, ((1 : ℚ), (0 : ℚ)), (3/320)),
              (0, 1, ((1 : ℚ), (0 : ℚ)), (3/640)), (1, 2, ((1 : ℚ), (0 : ℚ)), (3/1280))],
             [(0, 1), (0, 1), (0, 1), (0, 1)]) := by
    have l0 := resolve_loop_zero 0
      ([c2Ent (-127/1280) (-641/32), c2Ent (2303/2560) (609/32), c2Ent (4863/2560) (0)] : World)
    have l1 := resolve_loop_succ 0 0 _ _ _ _ _ hpassi3 l0
    have l2 := resolve_loop_succ 0 1 _ _ _ _ _ hpassi2 l1
    have l3 := resolve_loop_succ 0 2 _ _ _ _ _ hpassi1 l2
    have l4 := resolve_loop_succ 0 3 _ _ _ _ _ hpassi0 l3
    simpa using l4
  have hupd : update PhysicsSystem.new c2World 0
      = .ok ([c2Ent (-127/1280) (-641/32), c2Ent (2303/2560) (609/32), c2Ent (4863/2560) (0)],
             [(0, 1, ((1 : ℚ), (0 : ℚ)), (1/10)), (1, 2, ((1 : ℚ), (0 : ℚ)), (3/20)),
              (0, 1, ((1 : ℚ), (0 : ℚ)), (3/40)), (1, 2, ((1 : ℚ), (0 : ℚ)), (3/80)),
              (0, 1, ((1 : ℚ), (0 : ℚ)), (3/160)), (1, 2, ((1 : ℚ), (0 : ℚ)), (3/320)),
              (0, 1, ((1 : ℚ), (0 : ℚ)), (3/640)), (1, 2, ((1 : ℚ), (0 : ℚ)), (3/1280))],
             [(0, 1), (0, 1), (0, 1), (0, 1)]) := by
    rw [update_eq, hph1, hph2]
    exact hloop
  rw [hupd]
  constructor
  · rfl
  · rw [show impulse_count (Except.ok
      ([c2Ent (-127/1280) (-641/32), c2Ent (2303/2560) (609/32), c2Ent (4863/2560) (0)],
       [(0, 1, ((1 : ℚ), (0 : ℚ)), (1/10)), (1, 2, ((1 : ℚ), (0 : ℚ)), (3/20)),
        (0, 1, ((1 : ℚ), (0 : ℚ)), (3/40)), (1, 2, ((1 : ℚ), (0 : ℚ)), (3/80)),
        (0, 1, ((1 : ℚ), (0 : ℚ)), (3/160)), (1, 2, ((1 : ℚ), (0 : ℚ)), (3/320)),
        (0, 1, ((1 : ℚ), (0 : ℚ)), (3/640)), (1, 2, ((1 : ℚ), (0 : ℚ)), (3/1280))],
       [(0, 1), (0, 1), (0, 1), (0, 1)])) (0, 1) = 4 from rfl]
    norm_num

/-- C2 (amended).  What the code does guarantee: within one collision
iteration — one `resolve_collisions` scan over all unordered index pairs
`i < j` — each pair is visited once, so the velocity impulse is applied to a
given pair at most once per scan (hence at most `collision_iterations` times
per step, with repetitions across iterations possible, as shown by the
counterexample; positional correction may also repeat). -/
theorem count_le_one_of_nodup {l : List (ℕ × ℕ)} (h : l.Nodup) (p : ℕ × ℕ) :
    l.count p ≤ 1 := by
  induction l with
  | nil => simp
  | cons x xs ih =>
    have hx : x ∉ xs := (List.nodup_cons.mp h).1
    have hxs := ih (List.nodup_cons.mp h).2
    rw [List.count_cons]
    by_cases hpx : p = x
    · subst hpx
      have hz : xs.count p = 0 := List.count_eq_zero.mpr hx
      simp [hz]
    · simp only [beq_iff_eq, if_neg (Ne.symm hpx)]
      omega

theorem c2_impulse_at_most_once_per_scan (w : World) (dt : ℚ) {wr : World}
    {cl : List Contact} {il : List (ℕ × ℕ)}
    (h : resolve_collisions w dt = .ok (wr, cl, il)) (p : ℕ × ℕ) :
    il.count p ≤ 1 := by
  have hsub : List.Sublist il (allPairs w.length) := pass_sublist dt _ w h
  exact le_trans (hsub.count_le p) (count_le_one_of_nodup (allPairs_nodup w.length) p)

/-- Two separated circles used to instantiate the amended C2 theorem. -/
def c2WitWorld : World := [c2Ent 0 0, c2Ent 3 0]

theorem c2_impulse_at_most_once_per_scan_witness :
    resolve_collisions c2WitWorld 1 = .ok (c2WitWorld, [], []) ∧
      (([] : List (ℕ × ℕ)).count (0, 1) ≤ 1) := by
  have hchk : check_collision (getE c2WitWorld 0) (getE c2WitWorld 1) = .ok none := by
    norm_num [check_collision, check_circle_circle, getE, c2WitWorld, c2Ent,
      Physics.new, Transform.new]
  have h : resolve_collisions c2WitWorld 1 = .ok (c2WitWorld, [], []) := by
    rw [resolve_collisions_eq]
    rw [show allPairs (List.length c2WitWorld) = [(0, 1)] from allPairs_two]
    rw [passPairs_cons_none 1 0 1 [] _ hchk]
    exact passPairs_nil 1 _
  exact ⟨h, c2_impulse_at_most_once_per_scan c2WitWorld 1 h (0, 1)⟩

/-- Scenario of C3: circle A (radius 0.3, mass 1, moving right) overlapping
circle B (radius 0.2, mass 1, at rest at (0.4, 0)); penetration depth 0.1. -/
def c3World : World :=
  [{ transform := Transform.new (0, 0),
     physics := some { Physics.new with
                       velocity := (1, 0)
                       apply_gravity := false },
     shape := .circle (3/10) (0, 0, 0), clickable := none },
   { transform := Transform.new (2/5, 0),
     physics := some { Physics.new with apply_gravity := false },
     shape := .circle (1/5) (0, 0, 0), clickable := none }]

/-- C3 (counterexample).  The claim says the positional correction displaces
the two sides by a total of `0.8 * max(depth - 0.01, 0)` (slop 0.01,
percentage 0.8).  The code applies no slop and no percentage: for the
detected contact of `c3World` (normal (1, 0), depth 0.1) each unit-mass side
is displaced by the full `depth/2 = 0.05`, so A ends at x = -1/20, not at the
claimed `-0.8 * (0.1 - 0.01) / 2 = -9/250`. -/
theorem c3_correction_ignores_slop_and_percent :
    check_collision (getE c3World 0) (getE c3World 1)
        = .ok (some (((1 : ℚ), (0 : ℚ)), 1/10)) ∧
    (getE (position_correction c3World 0 1 ((1 : ℚ), (0 : ℚ)) (1/10)) 0).transform.position
        = (-(1 : ℚ)/20, (0 : ℚ)) ∧
    (getE (position_correction c3World 0 1 ((1 : ℚ), (0 : ℚ)) (1/10)) 1).transform.position
        = ((9 : ℚ)/20, (0 : ℚ)) ∧
    (-(1 : ℚ)/20, (0 : ℚ)) ≠ (-(9 : ℚ)/250, (0 : ℚ)) := by
  have hs : ratSqrt (4/25 : ℚ) = 2/5 := by
    rw [show (4/25 : ℚ) = (2/5) * (2/5) by norm_num]
    exact ratSqrt_sq (by norm_num)
  refine ⟨?_, ?_, ?_, by norm_num⟩
  · norm_num [check_collision, check_circle_circle, getE, c3World,
      Physics.new, Transform.new, hs]
  · norm_num [position_correction, getE, setPos, setE, dynOf, invMassOf, massOf,
      c3World, Physics.new, Transform.new]
  · norm_num [position_correction, getE, setPos, setE, dynOf, invMassOf, massOf,
      c3World, Physics.new, Transform.new]

/-- C3 (amended).  What the positional correction actually does for a
resolved contact with positive total inverse mass: it displaces side `i` by
`-(normal * depth / total_inv_mass) * inv_mass_i` and side `j` by
`+(normal * depth / total_inv_mass) * inv_mass_j` — the full depth, with no
slop subtracted and no percentage factor, split in proportion to each side's
share of the total inverse mass (a side with zero inverse mass does not
move) — and it writes only `Transform.position`: the physics state (hence
every velocity) of every entity `k0` is untouched, and entities other than
`i` and `j` are untouched entirely. -/
theorem c3_correction_full_depth_proportional (w : World) (i j k0 k1 : ℕ)
    (n : Vec2) (d : ℚ) (hij : i ≠ j) (hk1i : k1 ≠ i) (hk1j : k1 ≠ j)
    (hia : 0 ≤ invMassOf (getE w i)) (hib : 0 ≤ invMassOf (getE w j))
    (htim : 0 < invMassOf (getE w i) + invMassOf (getE w j)) :
    (getE (position_correction w i j n d) i).transform.position =
      ((getE w i).transform.position.1 -
         n.1 * d / (invMassOf (getE w i) + invMassOf (getE w j)) * invMassOf (getE w i),
       (getE w i).transform.position.2 -
         n.2 * d / (invMassOf (getE w i) + invMassOf (getE w j)) * invMassOf (getE w i)) ∧
    (getE (position_correction w i j n d) j).transform.position =
      ((getE w j).transform.position.1 +
         n.1 * d / (invMassOf (getE w i) + invMassOf (getE w j)) * invMassOf (getE w j),
       (getE w j).transform.position.2 +
         n.2 * d / (invMassOf (getE w i) + invMassOf (getE w j)) * invMassOf (getE w j)) ∧
    (getE (position_correction w i j n d) k0).physics = (getE w k0).physics ∧
    getE (position_correction w i j n d) k1 = getE w k1 := by
  obtain ⟨h1, h2⟩ := pc_positions w i j n d hij hia hib htim
  exact ⟨h1, h2, pc_physics w i j n d k0, pc_getE_ne w i j n d k1 hk1i hk1j⟩

theorem c3_correction_full_depth_proportional_witness :
    ((0 : ℕ) ≠ 1) ∧ ((2 : ℕ) ≠ 0) ∧ ((2 : ℕ) ≠ 1) ∧
    ((0 : ℚ) ≤ invMassOf (getE c3World 0)) ∧
    ((0 : ℚ) ≤ invMassOf (getE c3World 1)) ∧
    ((0 : ℚ) < invMassOf (getE c3World 0) + invMassOf (getE c3World 1)) ∧
    ((getE (position_correction c3World 0 1 ((1 : ℚ), (0 : ℚ)) (1/10)) 0).transform.position =
      ((getE c3World 0).transform.position.1 -
         (1 : ℚ) * (1/10) / (invMassOf (getE c3World 0) + invMassOf (getE c3World 1)) *
           invMassOf (getE c3World 0),
       (getE c3World 0).transform.position.2 -
         (0 : ℚ) * (1/10) / (invMassOf (getE c3World 0) + invMassOf (getE c3World 1)) *
           invMassOf (getE c3World 0)) ∧
    (getE (position_correction c3World 0 1 ((1 : ℚ), (0 : ℚ)) (1/10)) 1).transform.position =
      ((getE c3World 1).transform.position.1 +
         (1 : ℚ) * (1/10) / (invMassOf (getE c3World 0) + invMassOf (getE c3World 1)) *
           invMassOf (getE c3World 1),
       (getE c3World 1).transform.position.2 +
         (0 : ℚ) * (1/10) / (invMassOf (getE c3World 0) + invMassOf (getE c3World 1)) *
           invMassOf (getE c3World 1)) ∧
    (getE (position_correction c3World 0 1 ((1 : ℚ), (0 : ℚ)) (1/10)) 0).physics =
      (getE c3World 0).physics ∧
    getE (position_correction c3World 0 1 ((1 : ℚ), (0 : ℚ)) (1/10)) 2 = getE c3World 2) := by
  have h1 : (0 : ℚ) ≤ invMassOf (getE c3World 0) := by
    norm_num [invMassOf, dynOf, massOf, getE, c3World, Physics.new]
  have h2 : (0 : ℚ) ≤ invMassOf (getE c3World 1) := by
    norm_num [invMassOf, dynOf, massOf, getE, c3World, Physics.new]
  have h3 : (0 : ℚ) < invMassOf (getE c3World 0) + invMassOf (getE c3World 1) := by
    norm_num [invMassOf, dynOf, massOf, getE, c3World, Physics.new]
  exact ⟨by decide, by decide, by decide, h1, h2, h3,
    c3_correction_full_depth_proportional c3World 0 1 0 2 ((1 : ℚ), (0 : ℚ)) (1/10)
      (by decide) (by decide) (by decide) h1 h2 h3⟩

theorem passPairs_cons_some_err (dt : ℚ) (a b : ℕ) (rest : List (ℕ × ℕ))
    (w : World) (n : Vec2) (d : ℚ)
    (h1 : check_collision (getE w a) (getE w b) = .ok (some (n, d)))
    (h2 : resolve_collision_pair w a b n d dt = .error ()) :
    passPairs dt ((a, b) :: rest) w = .error () := by
  simp [passPairs, h1, h2]

theorem resolve_loop_succ_err (dt : ℚ) (K : ℕ) (w : World)
    (h1 : resolve_collisions w dt = .error ()) :
    resolve_loop dt (K + 1) w = .error () := by
  simp [resolve_loop, h1]

/-- Scenario of C4: two overlapping circles, both dynamic with infinite mass
and equal (zero) velocities — the case the claim singles out. -/
def c4World : World :=
  [{ transform := Transform.new (0, 0),
     physics := some { Physics.new with
                       mass := none
                       apply_gravity := false },
     shape := .circle (1/2) (0, 0, 0), clickable := none },
   { transform := Transform.new (1/2, 0),
     physics := some { Physics.new with
                       mass := none
                       apply_gravity := false },
     shape := .circle (1/2) (0, 0, 0), clickable := none }]

/-- C4 (counterexample).  The claim says one `update` call can never abort,
in particular when both sides of a contact are dynamic with infinite mass and
zero relative normal velocity.  Exactly that input aborts: total inverse mass
is 0 and `vel_along_normal` is 0, so `j = -(1+e)*0/0` is NaN in `f32`, the
friction clamp receives NaN bounds, and Rust's `f32::clamp` panics.  In the
embedding the run returns `Except.error ()`. -/
theorem c4_step_aborts_on_infinite_mass_pair :
    update PhysicsSystem.new c4World 0 = .error () := by
  have hs : ratSqrt (1/4 : ℚ) = 1/2 := by
    rw [show (1/4 : ℚ) = (1/2) * (1/2) by norm_num]
    exact ratSqrt_sq (by norm_num)
  have hph1 : c4World.map (integrate_velocity PhysicsSystem.new 0) = c4World := by
    norm_num [c4World, integrate_velocity, PhysicsSystem.new, Physics.new, Transform.new]
  have hph2 : c4World.map (integrate_position 0) = c4World := by
    norm_num [c4World, integrate_position, Physics.new, Transform.new]
  have hchk : check_collision (getE c4World 0) (getE c4World 1)
      = .ok (some (((1 : ℚ), (0 : ℚ)), 1/2)) := by
    norm_num [check_collision, check_circle_circle, getE, c4World,
      Physics.new, Transform.new, hs]
  have hrcp : resolve_collision_pair c4World 0 1 ((1 : ℚ), (0 : ℚ)) (1/2) 0
      = .error () := by
    norm_num [resolve_collision_pair, position_correction, getE, setPos, setE,
      dynOf, invMassOf, massOf, restOf, fricOf, velOf, c4World,
      Physics.new, Transform.new]
  have hpass : resolve_collisions c4World 0 = .error () := by
    rw [resolve_collisions_eq]
    rw [show allPairs (List.length c4World) = [(0, 1)] from allPairs_two]
    exact passPairs_cons_some_err 0 0 1 [] c4World _ _ hchk hrcp
  rw [update_eq, hph1, hph2]
  exact resolve_loop_succ_err 0 3 c4World hpass

/-- C4 (amended).  One `update` call runs to completion for every `dt` on
every well-formed world: nonnegative rectangle extents (the coordinate
clamps keep ordered bounds), nonnegative restitutions and frictions (the
friction clamp keeps ordered, non-NaN bounds), and every dynamic body of
finite positive mass (so a resolved contact always has positive total
inverse mass and the divisions and the friction clamp stay benign; the
divisions by center distance in detection and by total inverse mass in the
positional correction are guarded in the code itself).  These well-formedness
fields are never mutated by the driver, so the guarantee is preserved across
all phases and iterations. -/
theorem c4_step_total_on_wellformed (s : PhysicsSystem) (w : World) (dt : ℚ)
    (hok : WorldOk w = true) : isOkE (update s w dt) = true := by
  have h0 : ∀ k, entityOkB (getE w k) = true := WorldOk_getE hok
  have h1 : ∀ k, entityOkB (getE (w.map (integrate_velocity s dt)) k) = true := by
    intro k
    rw [phase1_getE]
    obtain ⟨hps, hsh, -⟩ := integrate_velocity_data s dt (getE w k)
    rw [entityOkB_congr hps hsh]
    exact h0 k
  have h2 : ∀ k, entityOkB
      (getE ((w.map (integrate_velocity s dt)).map (integrate_position dt)) k) = true := by
    intro k
    rw [phase2_getE]
    obtain ⟨hph, hsh⟩ := integrate_position_data dt (getE (w.map (integrate_velocity s dt)) k)
    have hps : physStatic (integrate_position dt (getE (w.map (integrate_velocity s dt)) k))
        = physStatic (getE (w.map (integrate_velocity s dt)) k) := by
      rw [physStatic, hph, physStatic]
    rw [entityOkB_congr hps hsh]
    exact h1 k
  obtain ⟨r, hr⟩ := loop_ok dt s.collision_iterations _ h2
  have hu : update s w dt = .ok r := hr
  rw [hu]
  rfl

/-- Well-formed world for the C4 witness: two overlapping unit-mass dynamic
circles and one static rectangle with nonnegative extents. -/
def c4WitWorld : World :=
  [{ transform := Transform.new (0, 0),
     physics := some { Physics.new with
                       velocity := (-(50 : ℚ)/49, 0)
                       apply_gravity := false },
     shape := .circle (1/2) (0, 0, 0), clickable := none },
   { transform := Transform.new (9/10, 0),
     physics := some { Physics.new with apply_gravity := false },
     shape := .circle (1/2) (0, 0, 0), clickable := none },
   { transform := Transform.new (5, 5),
     physics := some Physics.new_static,
     shape := .rectangle (1/2) (1/2) (0, 0, 0), clickable := none }]

theorem c4_step_total_on_wellformed_witness :
    WorldOk c4WitWorld = true ∧ isOkE (update PhysicsSystem.new c4WitWorld 1) = true := by
  have hok : WorldOk c4WitWorld = true := by
    norm_num [WorldOk, List.all_cons, List.all_nil, entityOkB, c4WitWorld,
      Physics.new, Physics.new_static, Transform.new]
  exact ⟨hok, c4_step_total_on_wellformed PhysicsSystem.new c4WitWorld 1 hok⟩

/-- C5.  Any entity that has no Physics component or whose Physics has
`dynamic = false` is left entirely unchanged by one driver step — in
particular its position and velocity — no matter how many contacts it
participates in: phase 1 and phase 2 skip it, the resolver's positional
correction and impulse writes are gated on the side's `dynamic` flag (and
both-static contacts exit immediately), so no write ever reaches it. -/
theorem c5_nondynamic_untouched (s : PhysicsSystem) (w : World) (dt : ℚ)
    {wr : World} {cl : List Contact} {il : List (ℕ × ℕ)}
    (h : update s w dt = .ok (wr, cl, il)) (i : ℕ)
    (hdyn : dynOf (getE w i) = false) : getE wr i = getE w i := by
  have hl : resolve_loop dt s.collision_iterations
      ((w.map (integrate_velocity s dt)).map (integrate_position dt)) = .ok (wr, cl, il) := h
  have e1 : getE (w.map (integrate_velocity s dt)) i = getE w i := by
    rw [phase1_getE]
    exact integrate_velocity_nondyn s dt hdyn
  have e2 : getE ((w.map (integrate_velocity s dt)).map (integrate_position dt)) i
      = getE w i := by
    rw [phase2_getE, e1]
    exact integrate_position_nondyn dt hdyn
  have hdyn2 : dynOf (getE ((w.map (integrate_velocity s dt)).map (integrate_position dt)) i)
      = false := by
    rw [e2]
    exact hdyn
  rw [← e2]
  exact loop_nondyn dt _ _ hl i hdyn2

/-- World of the C5 witness: a static circle (infinite mass, `dynamic =
false`) penetrated by a dynamic circle. -/
def c5World : World :=
  [{ transform := Transform.new (0, 0),
     physics := some Physics.new_static,
     shape := .circle (1/2) (0, 0, 0), clickable := none },
   { transform := Transform.new (9/10, 0),
     physics := some { Physics.new with
                       velocity := (1, 0)
                       apply_gravity := false
                       restitution := 1/2 },
     shape := .circle (1/2) (0, 0, 0), clickable := none }]

/-- Result of one step on `c5World` with `dt = 0`: the static circle is
untouched; the dynamic one is pushed out to x = 1 and (because of the
inverted relative-velocity convention) receives an impulse that speeds it up
to 49/20. -/
def c5Result : World :=
  [{ transform := Transform.new (0, 0),
     physics := some Physics.new_static,
     shape := .circle (1/2) (0, 0, 0), clickable := none },
   { transform := { Transform.new (9/10, 0) with position := (1, 0) },
     physics := some { Physics.new with
                       velocity := (49/20, 0)
                       apply_gravity := false
                       restitution := 1/2 },
     shape := .circle (1/2) (0, 0, 0), clickable := none }]

theorem c5_nondynamic_untouched_witness :
    update PhysicsSystem.new c5World 0
        = .ok (c5Result, [(0, 1, ((1 : ℚ), (0 : ℚ)), 1/10)], [(0, 1)]) ∧
    dynOf (getE c5World 0) = false ∧
    getE c5Result 0 = getE c5World 0 := by
  have hs : ratSqrt (81/100 : ℚ) = 9/10 := by
    rw [show (81/100 : ℚ) = (9/10) * (9/10) by norm_num]
    exact ratSqrt_sq (by norm_num)
  have hre : ratSqrt (1/4 : ℚ) = 1/2 := by
    rw [show (1/4 : ℚ) = (1/2) * (1/2) by norm_num]
    exact ratSqrt_sq (by norm_num)
  have hph1 : c5World.map (integrate_velocity PhysicsSystem.new 0)
      = [getE c5World 0,
         { transform := Transform.new (9/10, 0),
           physics := some { Physics.new with
                             velocity := (49/50, 0)
                             apply_gravity := false
                             restitution := 1/2 },
           shape := .circle (1/2) (0, 0, 0), clickable := none }] := by
    norm_num [c5World, getE, integrate_velocity, PhysicsSystem.new, Physics.new,
      Physics.new_static, Transform.new]
  have hph2 : ([getE c5World 0,
      { transform := Transform.new (9/10, 0),
        physics := some { Physics.new with
                          velocity := (49/50, 0)
                          apply_gravity := false
                          restitution := 1/2 },
        shape := .circle (1/2) (0, 0, 0), clickable := none }] : World).map
      (integrate_position 0)
      = [getE c5World 0,
         { transform := Transform.new (9/10, 0),
           physics := some { Physics.new with
                             velocity := (49/50, 0)
                             apply_gravity := false
                             restitution := 1/2 },
           shape := .circle (1/2) (0, 0, 0), clickable := none }] := by
    norm_num [c5World, getE, integrate_position, Physics.new, Physics.new_static,
      Transform.new]
  have hchk : check_collision
      (getE [getE c5World 0,
        { transform := Transform.new (9/10, 0),
          physics := some { Physics.new with
                            velocity := (49/50, 0)
                            apply_gravity := false
                            restitution := 1/2 },
          shape := .circle (1/2) (0, 0, 0), clickable := none }] 0)
      (getE [getE c5World 0,
        { transform := Transform.new (9/10, 0),
          physics := some { Physics.new with
                            velocity := (49/50, 0)
                            apply_gravity := false
                            restitution := 1/2 },
          shape := .circle (1/2) (0, 0, 0), clickable := none }] 1)
      = .ok (some (((1 : ℚ), (0 : ℚ)), 1/10)) := by
    norm_num [check_collision, check_circle_circle, getE, c5World,
      Physics.new, Physics.new_static, Transform.new, hs]
  have hrcp : resolve_collision_pair
      [getE c5World 0,
       { transform := Transform.new (9/10, 0),
         physics := some { Physics.new with
                           velocity := (49/50, 0)
                           apply_gravity := false
                           restitution := 1/2 },
         shape := .circle (1/2) (0, 0, 0), clickable := none }]
      0 1 ((1 : ℚ), (0 : ℚ)) (1/10) 0 = .ok (c5Result, true) := by
    norm_num [resolve_collision_pair, apply_impulse, position_correction, clampQ,
      getE, setPos, setE, setVel, dynOf, invMassOf, massOf, restOf, fricOf, velOf,
      c5World, c5Result, Physics.new, Physics.new_static, Transform.new, hre]
  have hchk2 : check_collision (getE c5Result 0) (getE c5Result 1) = .ok none := by
    norm_num [check_collision, check_circle_circle, getE, c5Result,
      Physics.new, Physics.new_static, Transform.new]
  have hpass1 : resolve_collisions
      [getE c5World 0,
       { transform := Transform.new (9/10, 0),
         physics := some { Physics.new with
                           velocity := (49/50, 0)
                           apply_gravity := false
                           restitution := 1/2 },
         shape := .circle (1/2) (0, 0, 0), clickable := none }] 0
      = .ok (c5Result, [(0, 1, ((1 : ℚ), (0 : ℚ)), 1/10)], [(0, 1)]) := by
    rw [resolve_collisions_eq]
    rw [show allPairs (List.length
      [getE c5World 0,
       { transform := Transform.new (9/10, 0),
         physics := some { Physics.new with
                           velocity := (49/50, 0)
                           apply_gravity := false
                           restitution := 1/2 },
         shape := .circle (1/2) (0, 0, 0), clickable := none }]) = [(0, 1)]
      from allPairs_two]
    have := passPairs_cons_some 0 0 1 [] _ ((1 : ℚ), (0 : ℚ)) (1/10) c5Result true
      (c5Result, [], []) hchk hrcp (passPairs_nil 0 _)
    simpa using this
  have hpass2 : resolve_collisions c5Result 0 = .ok (c5Result, [], []) := by
    rw [resolve_collisions_eq]
    rw [show allPairs (List.length c5Result) = [(0, 1)] from allPairs_two]
    rw [passPairs_cons_none 0 0 1 [] _ hchk2]
    exact passPairs_nil 0 _
  have hloop : resolve_loop 0 4
      [getE c5World 0,
       { transform := Transform.new (9/10, 0),
         physics := some { Physics.new with
                           velocity := (49/50, 0)
                           apply_gravity := false
                           restitution := 1/2 },
         shape := .circle (1/2) (0, 0, 0), clickable := none }]
      = .ok (c5Result, [(0, 1, ((1 : ℚ), (0 : ℚ)), 1/10)], [(0, 1)]) := by
    have l0 := resolve_loop_zero 0 c5Result
    have l1 := resolve_loop_succ 0 0 _ _ _ _ _ hpass2 l0
    have l2 := resolve_loop_succ 0 1 _ _ _ _ _ hpass2 l1
    have l3 := resolve_loop_succ 0 2 _ _ _ _ _ hpass2 l2
    have l4 := resolve_loop_succ 0 3 _ _ _ _ _ hpass1 l3
    simpa using l4
  have hupd : update PhysicsSystem.new c5World 0
      = .ok (c5Result, [(0, 1, ((1 : ℚ), (0 : ℚ)), 1/10)], [(0, 1)]) := by
    rw [update_eq, hph1, hph2]
    exact hloop
  refine ⟨hupd, rfl, ?_⟩
  exact c5_nondynamic_untouched PhysicsSystem.new c5World 0 hupd 0 rfl

/-- C6.  A dynamic entity that participates in no detected contact during
the step is updated exactly by the integration formulas of the claim, with
the constants of `PhysicsSystem::new`: the total acceleration is the
accumulator plus the gravity vector (0, -1/2) when `apply_gravity` is set;
the new velocity is `0.98 * (v + a_total * dt)` (semi-implicit Euler with
per-tick damping), snapped to exactly (0, 0) when its squared magnitude is
below the sleep threshold squared (1/1000)^2; the position advances by the
already-updated velocity times `dt`; and the acceleration accumulator is
reset to (0, 0). -/
theorem c6_no_contact_integration (w : World) (dt : ℚ) (i : ℕ) {wr : World}
    {cl : List Contact} {il : List (ℕ × ℕ)} {p0 : Physics}
    (h : update PhysicsSystem.new w dt = .ok (wr, cl, il))
    (hp : (getE w i).physics = some p0) (hd : p0.dynamic = true)
    (hnc : ∀ c ∈ cl, c.1 ≠ i ∧ c.2.1 ≠ i) :
    getE wr i =
      (let a_total := if p0.apply_gravity
         then (p0.acceleration.1 + 0, p0.acceleration.2 + -(1/2))
         else p0.acceleration
       let v1 := ((p0.velocity.1 + a_total.1 * dt) * (49/50),
                  (p0.velocity.2 + a_total.2 * dt) * (49/50))
       let v2 := if v1.1 * v1.1 + v1.2 * v1.2 < (1/1000) * (1/1000)
         then ((0 : ℚ), (0 : ℚ)) else v1
       { getE w i with
         transform := { (getE w i).transform with
           position := ((getE w i).transform.position.1 + v2.1 * dt,
                        (getE w i).transform.position.2 + v2.2 * dt) },
         physics := some { p0 with velocity := v2, acceleration := (0, 0) } }) := by
  have hl : resolve_loop dt PhysicsSystem.new.collision_iterations
      ((w.map (integrate_velocity PhysicsSystem.new dt)).map (integrate_position dt))
      = .ok (wr, cl, il) := h
  have h1 : getE wr i
      = getE ((w.map (integrate_velocity PhysicsSystem.new dt)).map (integrate_position dt)) i :=
    loop_contacts dt _ _ hl i hnc
  rw [h1, phase2_getE, phase1_getE]
  simp only [integrate_velocity, hp, hd, PhysicsSystem.new, Bool.not_true,
    Bool.false_eq_true, if_false, integrate_position]

/-- Physics of the single entity of the C6 witness world. -/
def c6P0 : Physics := { Physics.new with velocity := (1/10, 0) }

/-- World of the C6 witness: one dynamic circle under gravity, no partner to
collide with. -/
def c6World : World :=
  [{ transform := Transform.new (0, 0),
     physics := some c6P0,
     shape := .circle (1/10) (0, 0, 0), clickable := none }]

/-- The C6 witness world after one step with `dt = 1`. -/
def c6Result : World :=
  [{ transform := { Transform.new (0, 0) with position := (49/500, -(49 : ℚ)/100) },
     physics := some { c6P0 with
                       velocity := (49/500, -(49 : ℚ)/100)
                       acceleration := (0, 0) },
     shape := .circle (1/10) (0, 0, 0), clickable := none }]

theorem c6_no_contact_integration_witness :
    update PhysicsSystem.new c6World 1 = .ok (c6Result, [], []) ∧
    (getE c6World 0).physics = some c6P0 ∧
    c6P0.dynamic = true ∧
    getE c6Result 0 =
      (let a_total := if c6P0.apply_gravity
         then (c6P0.acceleration.1 + 0, c6P0.acceleration.2 + -(1/2))
         else c6P0.acceleration
       let v1 := ((c6P0.velocity.1 + a_total.1 * 1) * (49/50),
                  (c6P0.velocity.2 + a_total.2 * 1) * (49/50))
       let v2 := if v1.1 * v1.1 + v1.2 * v1.2 < (1/1000) * (1/1000)
         then ((0 : ℚ), (0 : ℚ)) else v1
       { getE c6World 0 with
         transform := { (getE c6World 0).transform with
           position := ((getE c6World 0).transform.position.1 + v2.1 * 1,
                        (getE c6World 0).transform.position.2 + v2.2 * 1) },
         physics := some { c6P0 with velocity := v2, acceleration := (0, 0) } }) := by
  have hph1 : c6World.map (integrate_velocity PhysicsSystem.new 1)
      = [{ transform := Transform.new (0, 0),
           physics := some { c6P0 with
                             velocity := (49/500, -(49 : ℚ)/100)
                             acceleration := (0, 0) },
           shape := .circle (1/10) (0, 0, 0), clickable := none }] := by
    norm_num [c6World, c6P0, integrate_velocity, PhysicsSystem.new, Physics.new,
      Transform.new]
  have hph2 : ([{ transform := Transform.new (0, 0),
                  physics := some { c6P0 with
                                    velocity := (49/500, -(49 : ℚ)/100)
                                    acceleration := (0, 0) },
                  shape := .circle (1/10) (0, 0, 0),
                  clickable := none }] : World).map
      (integrate_position 1) = c6Result := by
    norm_num [c6Result, c6P0, integrate_position, Physics.new, Transform.new]
  have hpass : resolve_collisions c6Result 1 = .ok (c6Result, [], []) := by
    rw [resolve_collisions_eq]
    rw [show allPairs (List.length c6Result) = [] from allPairs_one]
    exact passPairs_nil 1 _
  have hloop : resolve_loop 1 4 c6Result = .ok (c6Result, [], []) := by
    have l0 := resolve_loop_zero 1 c6Result
    have l1 := resolve_loop_succ 1 0 _ _ _ _ _ hpass l0
    have l2 := resolve_loop_succ 1 1 _ _ _ _ _ hpass l1
    have l3 := resolve_loop_succ 1 2 _ _ _ _ _ hpass l2
    have l4 := resolve_loop_succ 1 3 _ _ _ _ _ hpass l3
    simpa using l4
  have hupd : update PhysicsSystem.new c6World 1 = .ok (c6Result, [], []) := by
    rw [update_eq, hph1, hph2]
    exact hloop
  refine ⟨hupd, rfl, rfl, ?_⟩
  exact c6_no_contact_integration c6World 1 0 hupd rfl rfl (by simp)

/-- C7.  For circle-circle pairs where at least one side carries Physics,
detection behaves exactly as claimed: no contact when the squared center
distance is at most 1e-4 (degenerate-coincidence guard) or at least the
squared sum of radii; otherwise a contact whose normal is
`(B - A) / distance` and whose depth is `(r_a + r_b) - distance`, where
`distance` is the square root of the squared distance (the embedding's
`ratSqrt` standing in for `f32::sqrt`). -/
theorem c7_circle_circle_detection (ea eb : Entity) (r_a r_b : ℚ)
    (ca cb : ℚ × ℚ × ℚ)
    (hsa : ea.shape = .circle r_a ca) (hsb : eb.shape = .circle r_b cb)
    (hphys : ¬(ea.physics = none ∧ eb.physics = none)) :
    check_collision ea eb =
      .ok (let dx := eb.transform.position.1 - ea.transform.position.1
           let dy := eb.transform.position.2 - ea.transform.position.2
           let dist_sq := dx * dx + dy * dy
           if dist_sq ≤ 1/10000 ∨ (r_a + r_b) * (r_a + r_b) ≤ dist_sq then none
           else some ((dx / ratSqrt dist_sq, dy / ratSqrt dist_sq),
                      (r_a + r_b) - ratSqrt dist_sq)) := by
  have hph : ¬(ea.physics.isNone = true ∧ eb.physics.isNone = true) := by
    simpa [Option.isNone_iff_eq_none] using hphys
  simp only [check_collision, hsa, hsb, if_neg hph]
  show Except.ok (check_circle_circle ea.transform.position r_a eb.transform.position r_b) = _
  congr 1
  simp only [check_circle_circle]
  by_cases hcond : (eb.transform.position.1 - ea.transform.position.1) *
        (eb.transform.position.1 - ea.transform.position.1) +
        (eb.transform.position.2 - ea.transform.position.2) *
        (eb.transform.position.2 - ea.transform.position.2) <
        (r_a + r_b) * (r_a + r_b) ∧
      1/10000 < (eb.transform.position.1 - ea.transform.position.1) *
        (eb.transform.position.1 - ea.transform.position.1) +
        (eb.transform.position.2 - ea.transform.position.2) *
        (eb.transform.position.2 - ea.transform.position.2)
  · rw [if_pos hcond, if_neg]
    push_neg
    constructor
    · linarith [hcond.2]
    · linarith [hcond.1]
  · rw [if_neg hcond, if_pos]
    by_contra hc
    push_neg at hc
    exact hcond ⟨hc.2, hc.1⟩

/-- Circle with physics for the C7 witness. -/
def c7A : Entity :=
  { transform := Transform.new (0, 0),
    physics := some Physics.new,
    shape := .circle (3/10) (0, 0, 0), clickable := none }

/-- Decorative circle without physics for the C7 witness. -/
def c7B : Entity :=
  { transform := Transform.new (2/5, 0),
    physics := none,
    shape := .circle (1/5) (0, 0, 0), clickable := none }

theorem c7_circle_circle_detection_witness :
    c7A.shape = .circle (3/10) (0, 0, 0) ∧
    c7B.shape = .circle (1/5) (0, 0, 0) ∧
    ¬(c7A.physics = none ∧ c7B.physics = none) ∧
    check_collision c7A c7B =
      .ok (let dx := c7B.transform.position.1 - c7A.transform.position.1
           let dy := c7B.transform.position.2 - c7A.transform.position.2
           let dist_sq := dx * dx + dy * dy
           if dist_sq ≤ 1/10000 ∨ (3/10 + 1/5) * (3/10 + 1/5) ≤ dist_sq then none
           else some ((dx / ratSqrt dist_sq, dy / ratSqrt dist_sq),
                      (3/10 + 1/5) - ratSqrt dist_sq)) := by
  refine ⟨rfl, rfl, by simp [c7A], ?_⟩
  exact c7_circle_circle_detection c7A c7B (3/10) (1/5) (0, 0, 0) (0, 0, 0) rfl rfl
    (by simp [c7A])

/-- C8.  Collision detection reports no contact whenever neither entity has
a Physics component (whatever the shapes and positions: the early guard),
and for any pair in which either shape is a `Text` variant (whatever the
positions and physics: every shape-pair arm of the dispatch involving `Text`
falls through to the catch-all `None`). -/
theorem c8_no_physics_or_text_no_contact (ea eb : Entity)
    (h : (ea.physics = none ∧ eb.physics = none) ∨
         ea.shape.is_text = true ∨ eb.shape.is_text = true) :
    check_collision ea eb = .ok none := by
  rcases h with ⟨h1, h2⟩ | h | h
  · simp [check_collision, h1, h2]
  · simp only [check_collision]
    split_ifs with hph
    · rfl
    · cases hsa : ea.shape with
      | circle r c =>
        rw [hsa] at h
        simp [Shape.is_text] at h
      | rectangle a b c =>
        rw [hsa] at h
        simp [Shape.is_text] at h
      | text s f c => cases hsb : eb.shape <;> rfl
  · simp only [check_collision]
    split_ifs with hph
    · rfl
    · cases hsb : eb.shape with
      | circle r c =>
        rw [hsb] at h
        simp [Shape.is_text] at h
      | rectangle a b c =>
        rw [hsb] at h
        simp [Shape.is_text] at h
      | text s f c => cases hsa : ea.shape <;> rfl

/-- Text entity (with physics) for the C8 witness. -/
def c8T : Entity :=
  { transform := Transform.new (0, 0),
    physics := some Physics.new,
    shape := .text "" 1 (0, 0, 0), clickable := none }

/-- Overlapping physical circle for the C8 witness. -/
def c8C : Entity :=
  { transform := Transform.new (0, 0),
    physics := some Physics.new,
    shape := .circle 1 (0, 0, 0), clickable := none }

theorem c8_no_physics_or_text_no_contact_witness :
    c8T.shape.is_text = true ∧ check_collision c8T c8C = .ok none := by
  refine ⟨rfl, ?_⟩
  exact c8_no_physics_or_text_no_contact c8T c8C (Or.inr (Or.inl rfl))

/-- Scenario of C9: one non-dynamic entity whose acceleration accumulator
holds (1, 1). -/
def c9World : World :=
  [{ transform := Transform.new (0, 0),
     physics := some { Physics.new_static with acceleration := (1, 1) },
     shape := .circle (1/10) (0, 0, 0), clickable := none }]

/-- C9 (counterexample).  The claim says that after a step the acceleration
of every entity with Physics — dynamic or not — is exactly (0, 0).  Phase 1
`continue`s over non-dynamic entities before the reset line, so a
non-dynamic entity's accumulator survives the step: here it is still (1, 1)
after `update`. -/
theorem c9_static_acceleration_persists :
    update PhysicsSystem.new c9World 1 = .ok (c9World, [], []) ∧
    (getE c9World 0).physics.map Physics.acceleration = some (1, 1) ∧
    (some ((1 : ℚ), (1 : ℚ)) : Option Vec2) ≠ some ((0 : ℚ), (0 : ℚ)) := by
  have hph1 : c9World.map (integrate_velocity PhysicsSystem.new 1) = c9World := by
    norm_num [c9World, integrate_velocity, Physics.new_static, Physics.new,
      Transform.new]
  have hph2 : c9World.map (integrate_position 1) = c9World := by
    norm_num [c9World, integrate_position, Physics.new_static, Physics.new,
      Transform.new]
  have hpass : resolve_collisions c9World 1 = .ok (c9World, [], []) := by
    rw [resolve_collisions_eq]
    rw [show allPairs (List.length c9World) = [] from allPairs_one]
    exact passPairs_nil 1 _
  have hloop : resolve_loop 1 4 c9World = .ok (c9World, [], []) := by
    have l0 := resolve_loop_zero 1 c9World
    have l1 := resolve_loop_succ 1 0 _ _ _ _ _ hpass l0
    have l2 := resolve_loop_succ 1 1 _ _ _ _ _ hpass l1
    have l3 := resolve_loop_succ 1 2 _ _ _ _ _ hpass l2
    have l4 := resolve_loop_succ 1 3 _ _ _ _ _ hpass l3
    simpa using l4
  refine ⟨?_, rfl, by norm_num⟩
  rw [update_eq, hph1, hph2]
  exact hloop

/-- C9 (amended).  What the code guarantees: after a step, the acceleration
accumulator of every entity with Physics and `dynamic = true` equals exactly
(0, 0) — phase 1 resets it, and neither phase 2 nor any collision
resolution ever writes an acceleration.  A non-dynamic entity's accumulator
is skipped by phase 1 and survives unchanged (see the counterexample). -/
theorem c9_dynamic_acceleration_reset (s : PhysicsSystem) (w : World) (dt : ℚ)
    {wr : World} {cl : List Contact} {il : List (ℕ × ℕ)} {p0 : Physics}
    (h : update s w dt = .ok (wr, cl, il)) (i : ℕ)
    (hp : (getE w i).physics = some p0) (hd : p0.dynamic = true) :
    physAcc (getE wr i) = some (0, 0) := by
  have hl : resolve_loop dt s.collision_iterations
      ((w.map (integrate_velocity s dt)).map (integrate_position dt)) = .ok (wr, cl, il) := h
  have h1 : physAcc (getE (w.map (integrate_velocity s dt)) i) = some (0, 0) := by
    rw [phase1_getE]
    exact integrate_velocity_dyn_acc s dt hp hd
  have h2 : physAcc (getE ((w.map (integrate_velocity s dt)).map (integrate_position dt)) i)
      = some (0, 0) := by
    rw [phase2_getE, integrate_position_physAcc]
    exact h1
  have h3 := (loop_entity_data dt _ _ hl i).1
  rw [h3, h2]

/-- Physics of the C9 witness entity: dynamic, with a pending acceleration. -/
def c9WitP : Physics :=
  { Physics.new with acceleration := (2, 3), apply_gravity := false }

/-- World of the C9 witness: a single dynamic circle with a nonzero
acceleration accumulator. -/
def c9WitWorld : World :=
  [{ transform := Transform.new (0, 0),
     physics := some c9WitP,
     shape := .circle (1/10) (0, 0, 0), clickable := none }]

/-- The C9 witness world after one step with `dt = 1`. -/
def c9WitResult : World :=
  [{ transform := { Transform.new (0, 0) with position := (49/25, 147/50) },
     physics := some { c9WitP with
                       velocity := (49/25, 147/50)
                       acceleration := (0, 0) },
     shape := .circle (1/10) (0, 0, 0), clickable := none }]

theorem c9_dynamic_acceleration_reset_witness :
    update PhysicsSystem.new c9WitWorld 1 = .ok (c9WitResult, [], []) ∧
    (getE c9WitWorld 0).physics = some c9WitP ∧
    c9WitP.dynamic = true ∧
    physAcc (getE c9WitResult 0) = some (0, 0) := by
  have hph1 : c9WitWorld.map (integrate_velocity PhysicsSystem.new 1)
      = [{ transform := Transform.new (0, 0),
           physics := some { c9WitP with
                             velocity := (49/25, 147/50)
                             acceleration := (0, 0) },
           shape := .circle (1/10) (0, 0, 0), clickable := none }] := by
    norm_num [c9WitWorld, c9WitP, integrate_velocity, PhysicsSystem.new,
      Physics.new, Transform.new]
  have hph2 : ([{ transform := Transform.new (0, 0),
                  physics := some { c9WitP with
                                    velocity := (49/25, 147/50)
                                    acceleration := (0, 0) },
                  shape := .circle (1/10) (0, 0, 0),
                  clickable := none }] : World).map (integrate_position 1)
      = c9WitResult := by
    norm_num [c9WitResult, c9WitP, integrate_position, Physics.new, Transform.new]
  have hpass : resolve_collisions c9WitResult 1 = .ok (c9WitResult, [], []) := by
    rw [resolve_collisions_eq]
    rw [show allPairs (List.length c9WitResult) = [] from allPairs_one]
    exact passPairs_nil 1 _
  have hloop : resolve_loop 1 4 c9WitResult = .ok (c9WitResult, [], []) := by
    have l0 := resolve_loop_zero 1 c9WitResult
    have l1 := resolve_loop_succ 1 0 _ _ _ _ _ hpass l0
    have l2 := resolve_loop_succ 1 1 _ _ _ _ _ hpass l1
    have l3 := resolve_loop_succ 1 2 _ _ _ _ _ hpass l2
    have l4 := resolve_loop_succ 1 3 _ _ _ _ _ hpass l3
    simpa using l4
  have hupd : update PhysicsSystem.new c9WitWorld 1 = .ok (c9WitResult, [], []) := by
    rw [update_eq, hph1, hph2]
    exact hloop
  refine ⟨hupd, rfl, rfl, ?_⟩
  exact c9_dynamic_acceleration_reset PhysicsSystem.new c9WitWorld 1 hupd 0 rfl rfl

/-- C10.  Determinism of the step driver.  The embedding of `update` is a
pure function of the system's tuning constants, the world, and dt — faithful
to the source, where `update` takes `&mut self` but never writes a field of
`self`, reads no clock or random source, and touches no global state — so
equal inputs give equal outputs, stated as a congruence over the embedded
step. -/
theorem c10_update_deterministic (s : PhysicsSystem) (w1 w2 : World)
    (dt1 dt2 : ℚ) (hw : w1 = w2) (hdt : dt1 = dt2) :
    update s w1 dt1 = update s w2 dt2 := by
  rw [hw, hdt]

/-- World of the C10 witness: one dynamic circle under gravity. -/
def c10WitWorld : World :=
  [{ transform := Transform.new (0, 0),
     physics := some Physics.new,
     shape := .circle (1/10) (0, 0, 0), clickable := none }]

theorem c10_update_deterministic_witness :
    c10WitWorld = c10WitWorld ∧ (1 : ℚ) = 1 ∧
    update PhysicsSystem.new c10WitWorld 1 = update PhysicsSystem.new c10WitWorld 1 :=
  ⟨rfl, rfl, c10_update_deterministic PhysicsSystem.new c10WitWorld c10WitWorld 1 1 rfl rfl⟩
